import Mathlib

/-!
# image4go: the rectangle aligner and the output routines of `layer.go`

A shallow embedding of `layer.go`.

* Go's `int` is modelled at its 64-bit size, in two's complement: a value is an
  `Int`, and every arithmetic operation of the source is followed by `wrapInt`,
  the reduction into `[-2^63, 2^63)`.  `/` is Go's quotient, truncated toward zero.
* `image.Point` and `image.Rectangle` are the records of the standard library.
* `LayerAlignment` and `LayerVerticalAlignment` are defined as `int` in the source,
  so every integer is a value of these types, not only the four named constants.
* `WriteToPNG` and `WriteToJPEG` run against an explicit environment holding the
  answers of the operating system and of the codecs, and produce, next to their
  result, the trace of the external calls they made.
-/

namespace image4go

/-! ## Go's `int` -/

/-- The modulus of 64-bit arithmetic, `2^64`. -/
def intModulus : Int := 18446744073709551616

/-- The smallest `int`, `-2^63`. -/
def minInt : Int := -9223372036854775808

/-- The largest `int`, `2^63 - 1`. -/
def maxInt : Int := 9223372036854775807

/-- Reduction of a mathematical integer to the `int` it is stored as
(two's complement, 64 bits). -/
def wrapInt (x : Int) : Int := (x - minInt) % intModulus + minInt

/-- The values an `int` can hold. -/
def IsInt (x : Int) : Prop := minInt ≤ x ∧ x ≤ maxInt

instance (x : Int) : Decidable (IsInt x) := by
  unfold IsInt
  infer_instance

/-- Go's `a + b` on `int`. -/
def intAdd (a b : Int) : Int := wrapInt (a + b)

/-- Go's `a - b` on `int`. -/
def intSub (a b : Int) : Int := wrapInt (a - b)

/-- Go's `a / b` on `int` for a non-zero divisor: the quotient truncated toward
zero.  (The source only divides by the constant `2`.) -/
def intDiv (a b : Int) : Int := wrapInt (Int.tdiv a b)

/-! ## The data model -/

namespace image

/-- The standard library's `image.Point`. -/
structure Point where
  X : Int
  Y : Int
  deriving DecidableEq, Repr

/-- The standard library's `image.Rectangle`. -/
structure Rectangle where
  Min : Point
  Max : Point
  deriving DecidableEq, Repr

end image

/-- The source's `type LayerAlignment int`. -/
abbrev LayerAlignment := Int

/-- The source's `type LayerVerticalAlignment int`. -/
abbrev LayerVerticalAlignment := Int

def LayerAlignmentDefault : LayerAlignment := 0
def LayerAlignmentLeft : LayerAlignment := 1
def LayerAlignmentCenter : LayerAlignment := 2
def LayerAlignmentRight : LayerAlignment := 3

def LayerVerticalAlignmentDefault : LayerVerticalAlignment := 0
def LayerVerticalAlignmentTop : LayerVerticalAlignment := 1
def LayerVerticalAlignmentMiddle : LayerVerticalAlignment := 2
def LayerVerticalAlignmentBottom : LayerVerticalAlignment := 3

/-! ## `calcRect` -/

/-- The first `switch` of `calcRect`: the pair `(rect.Min.X, rect.Max.X)`. -/
def calcRect.horizontal (pRect sRect : image.Rectangle) (alignment : LayerAlignment) :
    Int × Int :=
  let pWidth := intSub pRect.Max.X pRect.Min.X
  let sWidth := intSub sRect.Max.X sRect.Min.X
  if alignment = LayerAlignmentDefault then
    (sRect.Min.X, sRect.Max.X)
  else if alignment = LayerAlignmentLeft then
    (0, sWidth)
  else if alignment = LayerAlignmentCenter then
    let w := intSub pWidth sWidth
    let minX := intDiv w 2
    (minX, intAdd minX sWidth)
  else if alignment = LayerAlignmentRight then
    let minX := intSub pWidth sWidth
    (minX, intAdd minX sWidth)
  else
    (sRect.Min.X, sRect.Max.X)

/-- The second `switch` of `calcRect`: the pair `(rect.Min.Y, rect.Max.Y)`. -/
def calcRect.vertical (pRect sRect : image.Rectangle)
    (verticalAlignment : LayerVerticalAlignment) : Int × Int :=
  let pHeight := intSub pRect.Max.Y pRect.Min.Y
  let sHeight := intSub sRect.Max.Y sRect.Min.Y
  if verticalAlignment = LayerVerticalAlignmentDefault then
    (sRect.Min.Y, sRect.Max.Y)
  else if verticalAlignment = LayerVerticalAlignmentTop then
    (0, sHeight)
  else if verticalAlignment = LayerVerticalAlignmentMiddle then
    let h := intSub pHeight sHeight
    let minY := intDiv h 2
    (minY, intAdd minY sHeight)
  else if verticalAlignment = LayerVerticalAlignmentBottom then
    let minY := intSub pHeight sHeight
    (minY, intAdd minY sHeight)
  else
    (sRect.Min.Y, sRect.Max.Y)

/-- The source's `calcRect`: the named result `rect` starts as the zero rectangle,
the first `switch` assigns its X coordinates and the second its Y coordinates. -/
def calcRect (pRect sRect : image.Rectangle) (alignment : LayerAlignment)
    (verticalAlignment : LayerVerticalAlignment) : image.Rectangle :=
  let h := calcRect.horizontal pRect sRect alignment
  let v := calcRect.vertical pRect sRect verticalAlignment
  { Min := { X := h.1, Y := v.1 }, Max := { X := h.2, Y := v.2 } }

/-- The width of a rectangle as the source computes it (`pWidth`, `sWidth`):
Go's `r.Max.X - r.Min.X`. -/
def image.Rectangle.Dx (r : image.Rectangle) : Int := intSub r.Max.X r.Min.X

/-- The height of a rectangle as the source computes it (`pHeight`, `sHeight`):
Go's `r.Max.Y - r.Min.Y`. -/
def image.Rectangle.Dy (r : image.Rectangle) : Int := intSub r.Max.Y r.Min.Y

/-- The subtractions `pMax - pMin`, `sMax - sMin` and their difference, taken in
the mathematical integers, are representable: along this axis no subtraction of
`calcRect` wraps around. -/
def NoOverflow (pMin pMax sMin sMax : Int) : Prop :=
  IsInt (pMax - pMin) ∧ IsInt (sMax - sMin) ∧ IsInt ((pMax - pMin) - (sMax - sMin))

instance (pMin pMax sMin sMax : Int) : Decidable (NoOverflow pMin pMax sMin sMax) := by
  unfold NoOverflow
  infer_instance

/-! ### `calcRect` with run-time panics made explicit

Go's integer division panics when the divisor is zero.  The definitions below
repeat `calcRect` with that failure as `none`. -/

/-- Go's `a / b` on `int`, `none` being the run-time panic on a zero divisor. -/
def intDivChecked (a b : Int) : Option Int :=
  if b = 0 then none else some (intDiv a b)

/-- The first `switch` of `calcRect`, a panic being `none`. -/
def calcRect.horizontalChecked (pRect sRect : image.Rectangle)
    (alignment : LayerAlignment) : Option (Int × Int) :=
  let pWidth := intSub pRect.Max.X pRect.Min.X
  let sWidth := intSub sRect.Max.X sRect.Min.X
  if alignment = LayerAlignmentDefault then
    some (sRect.Min.X, sRect.Max.X)
  else if alignment = LayerAlignmentLeft then
    some (0, sWidth)
  else if alignment = LayerAlignmentCenter then
    let w := intSub pWidth sWidth
    (intDivChecked w 2).bind fun minX => some (minX, intAdd minX sWidth)
  else if alignment = LayerAlignmentRight then
    let minX := intSub pWidth sWidth
    some (minX, intAdd minX sWidth)
  else
    some (sRect.Min.X, sRect.Max.X)

/-- The second `switch` of `calcRect`, a panic being `none`. -/
def calcRect.verticalChecked (pRect sRect : image.Rectangle)
    (verticalAlignment : LayerVerticalAlignment) : Option (Int × Int) :=
  let pHeight := intSub pRect.Max.Y pRect.Min.Y
  let sHeight := intSub sRect.Max.Y sRect.Min.Y
  if verticalAlignment = LayerVerticalAlignmentDefault then
    some (sRect.Min.Y, sRect.Max.Y)
  else if verticalAlignment = LayerVerticalAlignmentTop then
    some (0, sHeight)
  else if verticalAlignment = LayerVerticalAlignmentMiddle then
    let h := intSub pHeight sHeight
    (intDivChecked h 2).bind fun minY => some (minY, intAdd minY sHeight)
  else if verticalAlignment = LayerVerticalAlignmentBottom then
    let minY := intSub pHeight sHeight
    some (minY, intAdd minY sHeight)
  else
    some (sRect.Min.Y, sRect.Max.Y)

/-- The source's `calcRect`, a panic being `none`. -/
def calcRectChecked (pRect sRect : image.Rectangle) (alignment : LayerAlignment)
    (verticalAlignment : LayerVerticalAlignment) : Option image.Rectangle :=
  (calcRect.horizontalChecked pRect sRect alignment).bind fun h =>
  (calcRect.verticalChecked pRect sRect verticalAlignment).bind fun v =>
  some { Min := { X := h.1, Y := v.1 }, Max := { X := h.2, Y := v.2 } }

/-- The coordinates of a rectangle are values of `int`. -/
def image.Rectangle.IsInt (r : image.Rectangle) : Prop :=
  image4go.IsInt r.Min.X ∧ image4go.IsInt r.Min.Y ∧
  image4go.IsInt r.Max.X ∧ image4go.IsInt r.Max.Y

instance (r : image.Rectangle) : Decidable r.IsInt := by
  unfold image.Rectangle.IsInt
  infer_instance

/-- The standard library's `Rectangle.Add`: the rectangle translated by `(dx, dy)`. -/
def image.Rectangle.Add (r : image.Rectangle) (dx dy : Int) : image.Rectangle :=
  { Min := { X := intAdd r.Min.X dx, Y := intAdd r.Min.Y dy },
    Max := { X := intAdd r.Max.X dx, Y := intAdd r.Max.Y dy } }

/-! ## `Point`, `Size` and `isNil` -/

/-- The source's `Point`. -/
structure Point where
  X : Int
  Y : Int
  deriving DecidableEq, Repr

/-- The source's `NewPoint`. -/
def NewPoint (x y : Int) : Point := { X := x, Y := y }

/-- The source's `Size`. -/
structure Size where
  Width : Int
  Height : Int
  deriving DecidableEq, Repr

/-- The source's `NewSize`. -/
def NewSize (width height : Int) : Size := { Width := width, Height := height }

namespace reflect

/-- The standard library's `reflect.Kind`. -/
inductive Kind where
  | Invalid | Bool | Int | Int8 | Int16 | Int32 | Int64
  | Uint | Uint8 | Uint16 | Uint32 | Uint64 | Uintptr
  | Float32 | Float64 | Complex64 | Complex128
  | Array | Chan | Func | Interface | Map | Ptr | Slice | String | Struct
  | UnsafePointer
  deriving DecidableEq, Repr

/-- What `isNil` reads of a `reflect.Value`: the kind, and whether the value held
is nil (meaningful for the kinds that have a nil). -/
structure Value where
  kind : Kind
  nilValue : Bool
  deriving DecidableEq, Repr

/-- The standard library's `Value.Kind`. -/
def Value.Kind (v : Value) : Kind := v.kind

/-- The standard library's `Value.IsNil`: defined for the kinds chan, func,
interface, map, pointer, slice and unsafe pointer, a panic (`none`) for any
other kind. -/
def Value.IsNil (v : Value) : Option Bool :=
  match v.kind with
  | Kind.Chan | Kind.Func | Kind.Interface | Kind.Map | Kind.Ptr | Kind.Slice
  | Kind.UnsafePointer => some v.nilValue
  | _ => none

end reflect

/-- A value of Go's `interface{}`: the nil interface value, which has no dynamic
type, or a dynamic type, of which the kind is kept, with a dynamic value, of
which it is kept whether it is nil. -/
inductive Interface where
  | untypedNil
  | dyn (kind : reflect.Kind) (nilValue : Bool)
  deriving DecidableEq, Repr

/-- The standard library's `reflect.ValueOf`: the zero `Value`, of kind `Invalid`,
for the nil interface value. -/
def reflect.ValueOf (i : Interface) : reflect.Value :=
  match i with
  | Interface.untypedNil => { kind := reflect.Kind.Invalid, nilValue := false }
  | Interface.dyn kind nilValue => { kind := kind, nilValue := nilValue }

/-- The source's `isNil`; `none` is a panic of `Value.IsNil`. -/
def isNil (i : Interface) : Option Bool :=
  let vi := reflect.ValueOf i
  if vi.Kind = reflect.Kind.Ptr then
    vi.IsNil
  else
    some false

/-! ## The output routines

`WriteToPNG` and `WriteToJPEG` call the operating system (`os.Create`, the file's
`Write` and `Close`), the codecs (`png.Encode`, `jpeg.Encode`) and the layer's
`Render`.  Their answers are the fields of an environment `Env`; each routine
returns the `error` it reports together with the ordered trace of the calls it
made.  A Go `error` is an `Option Error`, `none` being `nil`.  The layer is taken
to be a non-nil interface value whose `Render` returns. -/

/-- A non-nil Go `error`. -/
structure Error where
  msg : String
  deriving DecidableEq, Repr

/-- An open `*os.File`. -/
structure File where
  fd : Nat
  deriving DecidableEq, Repr

/-- A value of `image.Image`, identified by a tag. -/
structure Image where
  tag : Nat
  deriving DecidableEq, Repr

/-- The getters of the source's `Layer` interface, as the answers that a given
layer value gives (the two setters are not used by the code modelled here). -/
structure Layer where
  Render : Image
  Rect : image.Rectangle
  Alignment : LayerAlignment
  VerticalAlignment : LayerVerticalAlignment

namespace bufio

/-- The state of the standard library's `bufio.Writer` that `Flush` reads: the
sticky error `err`, the number `n` of buffered bytes and the underlying writer
`wr`, here always a file. -/
structure Writer where
  err : Option Error
  n : Nat
  wr : File
  deriving DecidableEq, Repr

/-- The standard library's `bufio.NewWriter` on a writer that is not itself a
`bufio.Writer`: an empty buffer, no error. -/
def NewWriter (w : File) : Writer := { err := none, n := 0, wr := w }

end bufio

/-- The `io.Writer` handed to an encoder. -/
inductive Destination where
  | file (f : File)
  | buffered (b : bufio.Writer)
  deriving DecidableEq, Repr

/-- The external calls an output routine makes. -/
inductive Event where
  | create (name : String)
  | render
  | pngEncode (w : Destination) (m : Image)
  | jpegEncode (w : Destination) (m : Image) (quality : Int)
  | flush (wr : File)
  | write (f : File) (n : Nat)
  | close (f : File)
  deriving DecidableEq, Repr

/-- The answers of the collaborators.  `fileWrite f n` is the result of writing
`n` bytes to `f`: how many were written, and the error. -/
structure Env where
  osCreate : String → Except Error File
  pngEncode : Destination → Image → Option Error
  jpegEncode : Destination → Image → Int → Option Error
  fileWrite : File → Nat → Nat × Option Error
  fileClose : File → Option Error

/-- The result of a call: the returned `error` and the trace of external calls. -/
structure Run where
  err : Option Error
  trace : List Event
  deriving DecidableEq, Repr

/-- The standard library's `io.ErrShortWrite`. -/
def ErrShortWrite : Error := { msg := "short write" }

/-- The standard library's `(*bufio.Writer).Flush`: the sticky error if there is
one, nothing to do on an empty buffer, else one `Write` of the buffered bytes to
the underlying writer, a short write without error being `io.ErrShortWrite`. -/
def bufio.Writer.Flush (env : Env) (b : bufio.Writer) : Run :=
  match b.err with
  | some e => { err := some e, trace := [Event.flush b.wr] }
  | none =>
    if b.n = 0 then
      { err := none, trace := [Event.flush b.wr] }
    else
      let r := env.fileWrite b.wr b.n
      let err := if r.1 < b.n ∧ r.2 = none then some ErrShortWrite else r.2
      { err := err, trace := [Event.flush b.wr, Event.write b.wr b.n] }

/-- The statements of `WriteToPNG` after `defer nFile.Close()`. -/
def WriteToPNG.body (env : Env) (l : Layer) (nFile : File) : Run :=
  let b := bufio.NewWriter nFile
  let m := l.Render
  match env.pngEncode (Destination.file nFile) m with
  | some err =>
    { err := some err, trace := [Event.render, Event.pngEncode (Destination.file nFile) m] }
  | none =>
    let r := b.Flush env
    { err := r.err,
      trace := [Event.render, Event.pngEncode (Destination.file nFile) m] ++ r.trace }

/-- The source's `WriteToPNG`.  The deferred `nFile.Close()` runs after the body
on each of its return paths, and its result is dropped. -/
def WriteToPNG (env : Env) (l : Layer) (file : String) : Run :=
  match env.osCreate file with
  | Except.error err => { err := some err, trace := [Event.create file] }
  | Except.ok nFile =>
    let r := WriteToPNG.body env l nFile
    let _ := env.fileClose nFile
    { err := r.err, trace := Event.create file :: r.trace ++ [Event.close nFile] }

/-- The statements of `WriteToJPEG` after `defer nFile.Close()`. -/
def WriteToJPEG.body (env : Env) (l : Layer) (nFile : File) (quality : Int) : Run :=
  let b := bufio.NewWriter nFile
  let m := l.Render
  match env.jpegEncode (Destination.file nFile) m quality with
  | some err =>
    { err := some err,
      trace := [Event.render, Event.jpegEncode (Destination.file nFile) m quality] }
  | none =>
    let r := b.Flush env
    { err := r.err,
      trace := [Event.render, Event.jpegEncode (Destination.file nFile) m quality] ++ r.trace }

/-- The source's `WriteToJPEG`.  The deferred `nFile.Close()` runs after the body
on each of its return paths, and its result is dropped. -/
def WriteToJPEG (env : Env) (l : Layer) (file : String) (quality : Int) : Run :=
  match env.osCreate file with
  | Except.error err => { err := some err, trace := [Event.create file] }
  | Except.ok nFile =>
    let r := WriteToJPEG.body env l nFile quality
    let _ := env.fileClose nFile
    { err := r.err, trace := Event.create file :: r.trace ++ [Event.close nFile] }

/-- The event is a call of an encoder. -/
def Event.isEncode : Event → Bool
  | Event.pngEncode _ _ => true
  | Event.jpegEncode _ _ _ => true
  | _ => false

/-- The event is a `Write` on a file made by `Flush`. -/
def Event.isWrite : Event → Bool
  | Event.write _ _ => true
  | _ => false

/-- The event is a call of the layer's `Render`. -/
def Event.isRender : Event → Bool
  | Event.render => true
  | _ => false

/-! ### Sample environments -/

/-- A layer whose `Render` gives the image tagged `1`. -/
def sampleLayer : Layer :=
  { Render := { tag := 1 }, Rect := ⟨⟨0, 0⟩, ⟨200, 200⟩⟩,
    Alignment := LayerAlignmentDefault, VerticalAlignment := LayerVerticalAlignmentDefault }

/-- An environment where the file is created as descriptor `3`, the PNG encoder
succeeds, the JPEG encoder fails and writes are complete. -/
def sampleEnv : Env :=
  { osCreate := fun _ => Except.ok { fd := 3 },
    pngEncode := fun _ _ => none,
    jpegEncode := fun _ _ _ => some { msg := "jpeg: image is too large to encode" },
    fileWrite := fun _ n => (n, none),
    fileClose := fun _ => none }

/-- An environment where the file cannot be created. -/
def deniedEnv : Env :=
  { osCreate := fun _ => Except.error { msg := "permission denied" },
    pngEncode := fun _ _ => none,
    jpegEncode := fun _ _ _ => none,
    fileWrite := fun _ n => (n, none),
    fileClose := fun _ => none }

/-! ## Arithmetic of `int` -/

theorem wrapInt_isInt (x : Int) : IsInt (wrapInt x) := by
  unfold IsInt wrapInt minInt maxInt intModulus
  omega

theorem wrapInt_of_isInt {x : Int} (h : IsInt x) : wrapInt x = x := by
  unfold IsInt minInt maxInt at h
  unfold wrapInt minInt intModulus
  omega

theorem wrapInt_wrapInt (x : Int) : wrapInt (wrapInt x) = wrapInt x :=
  wrapInt_of_isInt (wrapInt_isInt x)

theorem tdiv_two_of_nonneg {w : Int} (h : 0 ≤ w) : Int.tdiv w 2 = w / 2 :=
  Int.tdiv_eq_ediv h (by decide)

theorem tdiv_two_of_neg {w : Int} (h : w < 0) : Int.tdiv w 2 = -((-w) / 2) := by
  have h1 : Int.tdiv (-w) 2 = (-w) / 2 := Int.tdiv_eq_ediv (by omega) (by decide)
  have h2 : Int.tdiv (-w) 2 = -(Int.tdiv w 2) := Int.neg_tdiv w 2
  omega

theorem tdiv_two_isInt {w : Int} (h : IsInt w) : IsInt (Int.tdiv w 2) := by
  unfold IsInt minInt maxInt at *
  rcases Int.lt_or_le w 0 with hw | hw
  · rw [tdiv_two_of_neg hw]; omega
  · rw [tdiv_two_of_nonneg hw]; omega

theorem intDiv_two (w : Int) (h : IsInt w) : intDiv w 2 = Int.tdiv w 2 :=
  wrapInt_of_isInt (tdiv_two_isInt h)

theorem intSub_intAdd_cancel (m b : Int) (hb : IsInt b) : intSub (intAdd m b) m = b := by
  unfold IsInt minInt maxInt at hb
  unfold intSub intAdd wrapInt minInt intModulus
  omega

theorem intSub_zero (b : Int) (hb : IsInt b) : intSub b 0 = b := by
  unfold intSub
  rw [Int.sub_zero]
  exact wrapInt_of_isInt hb

theorem intAdd_sub_of_isInt {a b : Int} (ha : IsInt a) : intAdd (a - b) b = a := by
  unfold intAdd
  rw [Int.sub_add_cancel]
  exact wrapInt_of_isInt ha

/-! ## The two switches of `calcRect`, case by case -/

theorem horizontal_default (pRect sRect : image.Rectangle) :
    calcRect.horizontal pRect sRect LayerAlignmentDefault = (sRect.Min.X, sRect.Max.X) := by
  simp [calcRect.horizontal]

theorem horizontal_left (pRect sRect : image.Rectangle) :
    calcRect.horizontal pRect sRect LayerAlignmentLeft = (0, sRect.Dx) := by
  simp [calcRect.horizontal, LayerAlignmentLeft, LayerAlignmentDefault, image.Rectangle.Dx]

theorem horizontal_center (pRect sRect : image.Rectangle) :
    calcRect.horizontal pRect sRect LayerAlignmentCenter
      = (Int.tdiv (intSub pRect.Dx sRect.Dx) 2,
         intAdd (Int.tdiv (intSub pRect.Dx sRect.Dx) 2) sRect.Dx) := by
  have h := intDiv_two (intSub pRect.Dx sRect.Dx) (wrapInt_isInt _)
  simp only [image.Rectangle.Dx] at h
  simp [calcRect.horizontal, LayerAlignmentLeft, LayerAlignmentDefault, LayerAlignmentCenter,
    image.Rectangle.Dx, h]

theorem horizontal_right (pRect sRect : image.Rectangle) :
    calcRect.horizontal pRect sRect LayerAlignmentRight
      = (intSub pRect.Dx sRect.Dx, intAdd (intSub pRect.Dx sRect.Dx) sRect.Dx) := by
  simp [calcRect.horizontal, LayerAlignmentLeft, LayerAlignmentDefault, LayerAlignmentCenter,
    LayerAlignmentRight, image.Rectangle.Dx]

theorem horizontal_other (pRect sRect : image.Rectangle) (alignment : LayerAlignment)
    (h1 : alignment ≠ LayerAlignmentLeft) (h2 : alignment ≠ LayerAlignmentCenter)
    (h3 : alignment ≠ LayerAlignmentRight) :
    calcRect.horizontal pRect sRect alignment = (sRect.Min.X, sRect.Max.X) := by
  simp [calcRect.horizontal, h1, h2, h3]

theorem vertical_default (pRect sRect : image.Rectangle) :
    calcRect.vertical pRect sRect LayerVerticalAlignmentDefault = (sRect.Min.Y, sRect.Max.Y) := by
  simp [calcRect.vertical]

theorem vertical_top (pRect sRect : image.Rectangle) :
    calcRect.vertical pRect sRect LayerVerticalAlignmentTop = (0, sRect.Dy) := by
  simp [calcRect.vertical, LayerVerticalAlignmentTop, LayerVerticalAlignmentDefault,
    image.Rectangle.Dy]

theorem vertical_middle (pRect sRect : image.Rectangle) :
    calcRect.vertical pRect sRect LayerVerticalAlignmentMiddle
      = (Int.tdiv (intSub pRect.Dy sRect.Dy) 2,
         intAdd (Int.tdiv (intSub pRect.Dy sRect.Dy) 2) sRect.Dy) := by
  have h := intDiv_two (intSub pRect.Dy sRect.Dy) (wrapInt_isInt _)
  simp only [image.Rectangle.Dy] at h
  simp [calcRect.vertical, LayerVerticalAlignmentTop, LayerVerticalAlignmentDefault,
    LayerVerticalAlignmentMiddle, image.Rectangle.Dy, h]

theorem vertical_bottom (pRect sRect : image.Rectangle) :
    calcRect.vertical pRect sRect LayerVerticalAlignmentBottom
      = (intSub pRect.Dy sRect.Dy, intAdd (intSub pRect.Dy sRect.Dy) sRect.Dy) := by
  simp [calcRect.vertical, LayerVerticalAlignmentTop, LayerVerticalAlignmentDefault,
    LayerVerticalAlignmentMiddle, LayerVerticalAlignmentBottom, image.Rectangle.Dy]

theorem vertical_other (pRect sRect : image.Rectangle)
    (verticalAlignment : LayerVerticalAlignment)
    (h1 : verticalAlignment ≠ LayerVerticalAlignmentTop)
    (h2 : verticalAlignment ≠ LayerVerticalAlignmentMiddle)
    (h3 : verticalAlignment ≠ LayerVerticalAlignmentBottom) :
    calcRect.vertical pRect sRect verticalAlignment = (sRect.Min.Y, sRect.Max.Y) := by
  simp [calcRect.vertical, h1, h2, h3]

theorem Dx_isInt (r : image.Rectangle) : IsInt r.Dx := wrapInt_isInt _

theorem Dy_isInt (r : image.Rectangle) : IsInt r.Dy := wrapInt_isInt _

/-- Along the horizontal axis the extent of the result is the extent of the source. -/
theorem horizontal_extent (pRect sRect : image.Rectangle) (alignment : LayerAlignment) :
    intSub (calcRect.horizontal pRect sRect alignment).2
      (calcRect.horizontal pRect sRect alignment).1 = sRect.Dx := by
  by_cases h1 : alignment = LayerAlignmentLeft
  · rw [h1, horizontal_left]; exact intSub_zero _ (Dx_isInt _)
  by_cases h2 : alignment = LayerAlignmentCenter
  · rw [h2, horizontal_center]; exact intSub_intAdd_cancel _ _ (Dx_isInt _)
  by_cases h3 : alignment = LayerAlignmentRight
  · rw [h3, horizontal_right]; exact intSub_intAdd_cancel _ _ (Dx_isInt _)
  rw [horizontal_other _ _ _ h1 h2 h3]; rfl

/-- Along the vertical axis the extent of the result is the extent of the source. -/
theorem vertical_extent (pRect sRect : image.Rectangle)
    (verticalAlignment : LayerVerticalAlignment) :
    intSub (calcRect.vertical pRect sRect verticalAlignment).2
      (calcRect.vertical pRect sRect verticalAlignment).1 = sRect.Dy := by
  by_cases h1 : verticalAlignment = LayerVerticalAlignmentTop
  · rw [h1, vertical_top]; exact intSub_zero _ (Dy_isInt _)
  by_cases h2 : verticalAlignment = LayerVerticalAlignmentMiddle
  · rw [h2, vertical_middle]; exact intSub_intAdd_cancel _ _ (Dy_isInt _)
  by_cases h3 : verticalAlignment = LayerVerticalAlignmentBottom
  · rw [h3, vertical_bottom]; exact intSub_intAdd_cancel _ _ (Dy_isInt _)
  rw [vertical_other _ _ _ h1 h2 h3]; rfl

/-! ## The switches when no subtraction wraps around -/

theorem intSub_of_isInt {a b : Int} (h : IsInt (a - b)) : intSub a b = a - b :=
  wrapInt_of_isInt h

theorem tdiv_two_add_isInt {a b : Int} (ha : IsInt a) (hb : IsInt b) (hab : IsInt (a - b)) :
    IsInt (Int.tdiv (a - b) 2 + b) := by
  unfold IsInt minInt maxInt at *
  rcases Int.lt_or_le (a - b) 0 with hw | hw
  · rw [tdiv_two_of_neg hw]; omega
  · rw [tdiv_two_of_nonneg hw]; omega

/-- The horizontal switch in the mathematical integers, when nothing overflows. -/
theorem horizontal_exact (pRect sRect : image.Rectangle) (alignment : LayerAlignment)
    (h : NoOverflow pRect.Min.X pRect.Max.X sRect.Min.X sRect.Max.X) :
    calcRect.horizontal pRect sRect alignment =
      if alignment = LayerAlignmentLeft then (0, sRect.Max.X - sRect.Min.X)
      else if alignment = LayerAlignmentCenter then
        (Int.tdiv ((pRect.Max.X - pRect.Min.X) - (sRect.Max.X - sRect.Min.X)) 2,
         Int.tdiv ((pRect.Max.X - pRect.Min.X) - (sRect.Max.X - sRect.Min.X)) 2
           + (sRect.Max.X - sRect.Min.X))
      else if alignment = LayerAlignmentRight then
        ((pRect.Max.X - pRect.Min.X) - (sRect.Max.X - sRect.Min.X),
         pRect.Max.X - pRect.Min.X)
      else (sRect.Min.X, sRect.Max.X) := by
  obtain ⟨hp, hs, hw⟩ := h
  have ep : pRect.Dx = pRect.Max.X - pRect.Min.X := intSub_of_isInt hp
  have es : sRect.Dx = sRect.Max.X - sRect.Min.X := intSub_of_isInt hs
  by_cases h1 : alignment = LayerAlignmentLeft
  · rw [if_pos h1, h1, horizontal_left, es]
  rw [if_neg h1]
  by_cases h2 : alignment = LayerAlignmentCenter
  · rw [if_pos h2, h2, horizontal_center, ep, es, intSub_of_isInt hw]
    have := tdiv_two_add_isInt hp hs hw
    rw [show intAdd (Int.tdiv ((pRect.Max.X - pRect.Min.X) - (sRect.Max.X - sRect.Min.X)) 2)
          (sRect.Max.X - sRect.Min.X)
        = Int.tdiv ((pRect.Max.X - pRect.Min.X) - (sRect.Max.X - sRect.Min.X)) 2
          + (sRect.Max.X - sRect.Min.X) from wrapInt_of_isInt this]
  rw [if_neg h2]
  by_cases h3 : alignment = LayerAlignmentRight
  · rw [if_pos h3, h3, horizontal_right, ep, es, intSub_of_isInt hw, intAdd_sub_of_isInt hp]
  rw [if_neg h3, horizontal_other _ _ _ h1 h2 h3]

/-- The vertical switch in the mathematical integers, when nothing overflows. -/
theorem vertical_exact (pRect sRect : image.Rectangle)
    (verticalAlignment : LayerVerticalAlignment)
    (h : NoOverflow pRect.Min.Y pRect.Max.Y sRect.Min.Y sRect.Max.Y) :
    calcRect.vertical pRect sRect verticalAlignment =
      if verticalAlignment = LayerVerticalAlignmentTop then (0, sRect.Max.Y - sRect.Min.Y)
      else if verticalAlignment = LayerVerticalAlignmentMiddle then
        (Int.tdiv ((pRect.Max.Y - pRect.Min.Y) - (sRect.Max.Y - sRect.Min.Y)) 2,
         Int.tdiv ((pRect.Max.Y - pRect.Min.Y) - (sRect.Max.Y - sRect.Min.Y)) 2
           + (sRect.Max.Y - sRect.Min.Y))
      else if verticalAlignment = LayerVerticalAlignmentBottom then
        ((pRect.Max.Y - pRect.Min.Y) - (sRect.Max.Y - sRect.Min.Y),
         pRect.Max.Y - pRect.Min.Y)
      else (sRect.Min.Y, sRect.Max.Y) := by
  obtain ⟨hp, hs, hw⟩ := h
  have ep : pRect.Dy = pRect.Max.Y - pRect.Min.Y := intSub_of_isInt hp
  have es : sRect.Dy = sRect.Max.Y - sRect.Min.Y := intSub_of_isInt hs
  by_cases h1 : verticalAlignment = LayerVerticalAlignmentTop
  · rw [if_pos h1, h1, vertical_top, es]
  rw [if_neg h1]
  by_cases h2 : verticalAlignment = LayerVerticalAlignmentMiddle
  · rw [if_pos h2, h2, vertical_middle, ep, es, intSub_of_isInt hw]
    have := tdiv_two_add_isInt hp hs hw
    rw [show intAdd (Int.tdiv ((pRect.Max.Y - pRect.Min.Y) - (sRect.Max.Y - sRect.Min.Y)) 2)
          (sRect.Max.Y - sRect.Min.Y)
        = Int.tdiv ((pRect.Max.Y - pRect.Min.Y) - (sRect.Max.Y - sRect.Min.Y)) 2
          + (sRect.Max.Y - sRect.Min.Y) from wrapInt_of_isInt this]
  rw [if_neg h2]
  by_cases h3 : verticalAlignment = LayerVerticalAlignmentBottom
  · rw [if_pos h3, h3, vertical_bottom, ep, es, intSub_of_isInt hw, intAdd_sub_of_isInt hp]
  rw [if_neg h3, vertical_other _ _ _ h1 h2 h3]

/-- Without overflow the mathematical extent of the horizontal result is the
mathematical extent of the source. -/
theorem horizontal_extent_exact (pRect sRect : image.Rectangle) (alignment : LayerAlignment)
    (h : NoOverflow pRect.Min.X pRect.Max.X sRect.Min.X sRect.Max.X) :
    (calcRect.horizontal pRect sRect alignment).2 - (calcRect.horizontal pRect sRect alignment).1
      = sRect.Max.X - sRect.Min.X := by
  rw [horizontal_exact pRect sRect alignment h]
  split_ifs <;> simp

/-- Without overflow the mathematical extent of the vertical result is the
mathematical extent of the source. -/
theorem vertical_extent_exact (pRect sRect : image.Rectangle)
    (verticalAlignment : LayerVerticalAlignment)
    (h : NoOverflow pRect.Min.Y pRect.Max.Y sRect.Min.Y sRect.Max.Y) :
    (calcRect.vertical pRect sRect verticalAlignment).2
        - (calcRect.vertical pRect sRect verticalAlignment).1
      = sRect.Max.Y - sRect.Min.Y := by
  rw [vertical_exact pRect sRect verticalAlignment h]
  split_ifs <;> simp

/-- The gaps left and right of a centred extent: with `w = pW - sW` not negative,
the left gap `w / 2` and the right gap `pW - (w / 2 + sW)`, computed on `int`. -/
theorem center_gaps (pW sW : Int) (hw : 0 ≤ intSub pW sW) :
    Int.tdiv (intSub pW sW) 2 + intSub pW (intAdd (Int.tdiv (intSub pW sW) 2) sW)
        = intSub pW sW ∧
    (intSub pW sW % 2 = 0 →
      Int.tdiv (intSub pW sW) 2 = intSub pW (intAdd (Int.tdiv (intSub pW sW) 2) sW)) ∧
    (intSub pW sW % 2 = 1 →
      Int.tdiv (intSub pW sW) 2 + 1
        = intSub pW (intAdd (Int.tdiv (intSub pW sW) 2) sW)) := by
  rw [tdiv_two_of_nonneg hw]
  have hr : intSub pW (intAdd (intSub pW sW / 2) sW) = intSub pW sW - intSub pW sW / 2 := by
    have hi := wrapInt_isInt (pW - sW)
    unfold IsInt minInt maxInt at hi
    unfold intSub intAdd wrapInt minInt intModulus at *
    omega
  rw [hr]
  refine ⟨by omega, ?_, ?_⟩ <;> intro h <;> omega

/-- The gaps left and right of a centred extent in the mathematical integers. -/
theorem center_gaps_exact (pW sW : Int) (hw : 0 ≤ pW - sW) :
    Int.tdiv (pW - sW) 2 + (pW - (Int.tdiv (pW - sW) 2 + sW)) = pW - sW ∧
    ((pW - sW) % 2 = 0 → Int.tdiv (pW - sW) 2 = pW - (Int.tdiv (pW - sW) 2 + sW)) ∧
    ((pW - sW) % 2 = 1 →
      Int.tdiv (pW - sW) 2 + 1 = pW - (Int.tdiv (pW - sW) 2 + sW)) := by
  rw [tdiv_two_of_nonneg hw]
  refine ⟨by omega, ?_, ?_⟩ <;> intro h <;> omega

/-! ## The claims about `calcRect` -/

/-- C1: for every parent rectangle, every source rectangle and every pair of
alignment values (any integers), the rectangle returned by `calcRect` has the
width and the height of the source: `rect.Max.X - rect.Min.X` equals
`sRect.Max.X - sRect.Min.X` and likewise along Y, as Go's `int` computes these
differences, negative and zero sizes included; and when no subtraction
overflows the same holds in the mathematical integers. -/
theorem calcRect_preserves_size (pRect sRect : image.Rectangle)
    (alignment : LayerAlignment) (verticalAlignment : LayerVerticalAlignment) :
    (intSub (calcRect pRect sRect alignment verticalAlignment).Max.X
        (calcRect pRect sRect alignment verticalAlignment).Min.X
      = intSub sRect.Max.X sRect.Min.X) ∧
    (intSub (calcRect pRect sRect alignment verticalAlignment).Max.Y
        (calcRect pRect sRect alignment verticalAlignment).Min.Y
      = intSub sRect.Max.Y sRect.Min.Y) ∧
    (NoOverflow pRect.Min.X pRect.Max.X sRect.Min.X sRect.Max.X →
      (calcRect pRect sRect alignment verticalAlignment).Max.X
          - (calcRect pRect sRect alignment verticalAlignment).Min.X
        = sRect.Max.X - sRect.Min.X) ∧
    (NoOverflow pRect.Min.Y pRect.Max.Y sRect.Min.Y sRect.Max.Y →
      (calcRect pRect sRect alignment verticalAlignment).Max.Y
          - (calcRect pRect sRect alignment verticalAlignment).Min.Y
        = sRect.Max.Y - sRect.Min.Y) :=
  ⟨horizontal_extent pRect sRect alignment,
   vertical_extent pRect sRect verticalAlignment,
   horizontal_extent_exact pRect sRect alignment,
   vertical_extent_exact pRect sRect verticalAlignment⟩

/-- Witness of C1: a source of width `-4` and height `0` centred in a parent of
size `7 x 5`. -/
theorem calcRect_preserves_size_witness :
    NoOverflow 0 7 6 2 ∧ NoOverflow 1 6 3 3 ∧
    (calcRect ⟨⟨0, 1⟩, ⟨7, 6⟩⟩ ⟨⟨6, 3⟩, ⟨2, 3⟩⟩ LayerAlignmentCenter
        LayerVerticalAlignmentMiddle).Max.X
      - (calcRect ⟨⟨0, 1⟩, ⟨7, 6⟩⟩ ⟨⟨6, 3⟩, ⟨2, 3⟩⟩ LayerAlignmentCenter
        LayerVerticalAlignmentMiddle).Min.X = 2 - 6 ∧
    (calcRect ⟨⟨0, 1⟩, ⟨7, 6⟩⟩ ⟨⟨6, 3⟩, ⟨2, 3⟩⟩ LayerAlignmentCenter
        LayerVerticalAlignmentMiddle).Max.Y
      - (calcRect ⟨⟨0, 1⟩, ⟨7, 6⟩⟩ ⟨⟨6, 3⟩, ⟨2, 3⟩⟩ LayerAlignmentCenter
        LayerVerticalAlignmentMiddle).Min.Y = 3 - 3 :=
  ⟨by decide, by decide,
   (calcRect_preserves_size ⟨⟨0, 1⟩, ⟨7, 6⟩⟩ ⟨⟨6, 3⟩, ⟨2, 3⟩⟩ LayerAlignmentCenter
      LayerVerticalAlignmentMiddle).2.2.1 (by decide),
   (calcRect_preserves_size ⟨⟨0, 1⟩, ⟨7, 6⟩⟩ ⟨⟨6, 3⟩, ⟨2, 3⟩⟩ LayerAlignmentCenter
      LayerVerticalAlignmentMiddle).2.2.2 (by decide)⟩

/-- C2: for every parent rectangle and every source rectangle,
`calcRect pRect sRect LayerAlignmentDefault LayerVerticalAlignmentDefault` is
`sRect`, all four coordinates, whatever the parent is. -/
theorem calcRect_default_default (pRect sRect : image.Rectangle) :
    calcRect pRect sRect LayerAlignmentDefault LayerVerticalAlignmentDefault = sRect := by
  unfold calcRect
  rw [horizontal_default, vertical_default]

/-- C3: with `pWidth = pRect.Max.X - pRect.Min.X` and
`sWidth = sRect.Max.X - sRect.Min.X`, `LayerAlignmentCenter` yields
`Min.X = (pWidth - sWidth) / 2`, the quotient truncated toward zero, and
`Max.X = Min.X + sWidth`; `LayerVerticalAlignmentMiddle` yields the same along Y.
Without overflow these are the values in the mathematical integers.  Parent
width 101 and source width 10 give `Min.X = 45`, `Max.X = 55`; a 50x50 source
centred in a 200x200 parent gives (75,75)-(125,125). -/
theorem calcRect_center_middle (pRect sRect : image.Rectangle)
    (alignment : LayerAlignment) (verticalAlignment : LayerVerticalAlignment) :
    ((calcRect pRect sRect LayerAlignmentCenter verticalAlignment).Min.X
        = Int.tdiv (intSub pRect.Dx sRect.Dx) 2 ∧
      (calcRect pRect sRect LayerAlignmentCenter verticalAlignment).Max.X
        = intAdd (calcRect pRect sRect LayerAlignmentCenter verticalAlignment).Min.X
            sRect.Dx) ∧
    ((calcRect pRect sRect alignment LayerVerticalAlignmentMiddle).Min.Y
        = Int.tdiv (intSub pRect.Dy sRect.Dy) 2 ∧
      (calcRect pRect sRect alignment LayerVerticalAlignmentMiddle).Max.Y
        = intAdd (calcRect pRect sRect alignment LayerVerticalAlignmentMiddle).Min.Y
            sRect.Dy) ∧
    (NoOverflow pRect.Min.X pRect.Max.X sRect.Min.X sRect.Max.X →
      (calcRect pRect sRect LayerAlignmentCenter verticalAlignment).Min.X
        = Int.tdiv ((pRect.Max.X - pRect.Min.X) - (sRect.Max.X - sRect.Min.X)) 2 ∧
      (calcRect pRect sRect LayerAlignmentCenter verticalAlignment).Max.X
        = (calcRect pRect sRect LayerAlignmentCenter verticalAlignment).Min.X
            + (sRect.Max.X - sRect.Min.X)) ∧
    (NoOverflow pRect.Min.Y pRect.Max.Y sRect.Min.Y sRect.Max.Y →
      (calcRect pRect sRect alignment LayerVerticalAlignmentMiddle).Min.Y
        = Int.tdiv ((pRect.Max.Y - pRect.Min.Y) - (sRect.Max.Y - sRect.Min.Y)) 2 ∧
      (calcRect pRect sRect alignment LayerVerticalAlignmentMiddle).Max.Y
        = (calcRect pRect sRect alignment LayerVerticalAlignmentMiddle).Min.Y
            + (sRect.Max.Y - sRect.Min.Y)) ∧
    (pRect.Dx = 101 → sRect.Dx = 10 →
      (calcRect pRect sRect LayerAlignmentCenter verticalAlignment).Min.X = 45 ∧
      (calcRect pRect sRect LayerAlignmentCenter verticalAlignment).Max.X = 55) ∧
    (pRect.Dx = 200 → pRect.Dy = 200 → sRect.Dx = 50 → sRect.Dy = 50 →
      calcRect pRect sRect LayerAlignmentCenter LayerVerticalAlignmentMiddle
        = ⟨⟨75, 75⟩, ⟨125, 125⟩⟩) := by
  refine ⟨?_, ?_, ?_, ?_, ?_, ?_⟩
  · simp [calcRect, horizontal_center]
  · simp [calcRect, vertical_middle]
  · intro h
    simp only [calcRect, horizontal_exact pRect sRect LayerAlignmentCenter h]
    simp [LayerAlignmentCenter, LayerAlignmentLeft]
  · intro h
    simp only [calcRect, vertical_exact pRect sRect LayerVerticalAlignmentMiddle h]
    simp [LayerVerticalAlignmentMiddle, LayerVerticalAlignmentTop]
  · intro hp hs
    simp only [calcRect, horizontal_center, hp, hs]
    exact ⟨by decide, by decide⟩
  · intro hp hp' hs hs'
    simp only [calcRect, horizontal_center, vertical_middle, hp, hp', hs, hs']
    decide

/-- Witness of C3: the parent (0,0)-(101,200) with the source (3,4)-(13,9), and
the parent (10,20)-(210,220) with the source (0,0)-(50,50). -/
theorem calcRect_center_middle_witness :
    (NoOverflow 0 101 3 13 ∧
      (calcRect ⟨⟨0, 0⟩, ⟨101, 200⟩⟩ ⟨⟨3, 4⟩, ⟨13, 9⟩⟩ LayerAlignmentCenter
          LayerVerticalAlignmentDefault).Min.X = Int.tdiv ((101 - 0) - (13 - 3)) 2) ∧
    ((⟨⟨0, 0⟩, ⟨101, 200⟩⟩ : image.Rectangle).Dx = 101 ∧
      (⟨⟨3, 4⟩, ⟨13, 9⟩⟩ : image.Rectangle).Dx = 10 ∧
      (calcRect ⟨⟨0, 0⟩, ⟨101, 200⟩⟩ ⟨⟨3, 4⟩, ⟨13, 9⟩⟩ LayerAlignmentCenter
          LayerVerticalAlignmentDefault).Max.X = 55) ∧
    calcRect ⟨⟨10, 20⟩, ⟨210, 220⟩⟩ ⟨⟨0, 0⟩, ⟨50, 50⟩⟩ LayerAlignmentCenter
        LayerVerticalAlignmentMiddle = ⟨⟨75, 75⟩, ⟨125, 125⟩⟩ :=
  ⟨⟨by decide,
    ((calcRect_center_middle ⟨⟨0, 0⟩, ⟨101, 200⟩⟩ ⟨⟨3, 4⟩, ⟨13, 9⟩⟩ LayerAlignmentDefault
      LayerVerticalAlignmentDefault).2.2.1 (by decide)).1⟩,
   ⟨by decide, by decide,
    ((calcRect_center_middle ⟨⟨0, 0⟩, ⟨101, 200⟩⟩ ⟨⟨3, 4⟩, ⟨13, 9⟩⟩ LayerAlignmentDefault
      LayerVerticalAlignmentDefault).2.2.2.2.1 (by decide) (by decide)).2⟩,
   (calcRect_center_middle ⟨⟨10, 20⟩, ⟨210, 220⟩⟩ ⟨⟨0, 0⟩, ⟨50, 50⟩⟩ LayerAlignmentDefault
      LayerVerticalAlignmentDefault).2.2.2.2.2 (by decide) (by decide) (by decide)
      (by decide)⟩

/-- C4: `LayerAlignmentRight` yields `Min.X = pWidth - sWidth` and `Max.X = pWidth`,
`LayerVerticalAlignmentBottom` yields `Min.Y = pHeight - sHeight` and
`Max.Y = pHeight`, the extents being `Max` minus `Min` of the parent and of the
source; without overflow these are the values in the mathematical integers.
Parent width 100 and source width 30 give `Min.X = 70`, `Max.X = 100`; parent
height 50 and source height 10 give `Min.Y = 40`, `Max.Y = 50`. -/
theorem calcRect_right_bottom (pRect sRect : image.Rectangle)
    (alignment : LayerAlignment) (verticalAlignment : LayerVerticalAlignment) :
    ((calcRect pRect sRect LayerAlignmentRight verticalAlignment).Min.X
        = intSub pRect.Dx sRect.Dx ∧
      (calcRect pRect sRect LayerAlignmentRight verticalAlignment).Max.X = pRect.Dx) ∧
    ((calcRect pRect sRect alignment LayerVerticalAlignmentBottom).Min.Y
        = intSub pRect.Dy sRect.Dy ∧
      (calcRect pRect sRect alignment LayerVerticalAlignmentBottom).Max.Y = pRect.Dy) ∧
    (NoOverflow pRect.Min.X pRect.Max.X sRect.Min.X sRect.Max.X →
      (calcRect pRect sRect LayerAlignmentRight verticalAlignment).Min.X
        = (pRect.Max.X - pRect.Min.X) - (sRect.Max.X - sRect.Min.X) ∧
      (calcRect pRect sRect LayerAlignmentRight verticalAlignment).Max.X
        = pRect.Max.X - pRect.Min.X) ∧
    (NoOverflow pRect.Min.Y pRect.Max.Y sRect.Min.Y sRect.Max.Y →
      (calcRect pRect sRect alignment LayerVerticalAlignmentBottom).Min.Y
        = (pRect.Max.Y - pRect.Min.Y) - (sRect.Max.Y - sRect.Min.Y) ∧
      (calcRect pRect sRect alignment LayerVerticalAlignmentBottom).Max.Y
        = pRect.Max.Y - pRect.Min.Y) ∧
    (pRect.Dx = 100 → sRect.Dx = 30 →
      (calcRect pRect sRect LayerAlignmentRight verticalAlignment).Min.X = 70 ∧
      (calcRect pRect sRect LayerAlignmentRight verticalAlignment).Max.X = 100) ∧
    (pRect.Dy = 50 → sRect.Dy = 10 →
      (calcRect pRect sRect alignment LayerVerticalAlignmentBottom).Min.Y = 40 ∧
      (calcRect pRect sRect alignment LayerVerticalAlignmentBottom).Max.Y = 50) := by
  have hx : intAdd (intSub pRect.Dx sRect.Dx) sRect.Dx = pRect.Dx := by
    have h := Dx_isInt pRect
    unfold IsInt minInt maxInt at h
    unfold intAdd intSub wrapInt minInt intModulus
    omega
  have hy : intAdd (intSub pRect.Dy sRect.Dy) sRect.Dy = pRect.Dy := by
    have h := Dy_isInt pRect
    unfold IsInt minInt maxInt at h
    unfold intAdd intSub wrapInt minInt intModulus
    omega
  refine ⟨?_, ?_, ?_, ?_, ?_, ?_⟩
  · simp [calcRect, horizontal_right, hx]
  · simp [calcRect, vertical_bottom, hy]
  · intro h
    simp only [calcRect, horizontal_exact pRect sRect LayerAlignmentRight h]
    simp [LayerAlignmentRight, LayerAlignmentCenter, LayerAlignmentLeft]
  · intro h
    simp only [calcRect, vertical_exact pRect sRect LayerVerticalAlignmentBottom h]
    simp [LayerVerticalAlignmentBottom, LayerVerticalAlignmentMiddle,
      LayerVerticalAlignmentTop]
  · intro hp hs
    simp only [calcRect, horizontal_right, hp, hs]
    exact ⟨by decide, by decide⟩
  · intro hp hs
    simp only [calcRect, vertical_bottom, hp, hs]
    exact ⟨by decide, by decide⟩

/-- Witness of C4: the source (5,5)-(35,15) in the parent (2,3)-(102,53). -/
theorem calcRect_right_bottom_witness :
    (NoOverflow 2 102 5 35 ∧ NoOverflow 3 53 5 15) ∧
    ((⟨⟨2, 3⟩, ⟨102, 53⟩⟩ : image.Rectangle).Dx = 100 ∧
      (⟨⟨5, 5⟩, ⟨35, 15⟩⟩ : image.Rectangle).Dx = 30 ∧
      (⟨⟨2, 3⟩, ⟨102, 53⟩⟩ : image.Rectangle).Dy = 50 ∧
      (⟨⟨5, 5⟩, ⟨35, 15⟩⟩ : image.Rectangle).Dy = 10) ∧
    (calcRect ⟨⟨2, 3⟩, ⟨102, 53⟩⟩ ⟨⟨5, 5⟩, ⟨35, 15⟩⟩ LayerAlignmentRight
        LayerVerticalAlignmentBottom).Min.X = (102 - 2) - (35 - 5) ∧
    (calcRect ⟨⟨2, 3⟩, ⟨102, 53⟩⟩ ⟨⟨5, 5⟩, ⟨35, 15⟩⟩ LayerAlignmentRight
        LayerVerticalAlignmentBottom).Max.Y = 53 - 3 ∧
    (calcRect ⟨⟨2, 3⟩, ⟨102, 53⟩⟩ ⟨⟨5, 5⟩, ⟨35, 15⟩⟩ LayerAlignmentRight
        LayerVerticalAlignmentBottom).Max.X = 100 ∧
    (calcRect ⟨⟨2, 3⟩, ⟨102, 53⟩⟩ ⟨⟨5, 5⟩, ⟨35, 15⟩⟩ LayerAlignmentRight
        LayerVerticalAlignmentBottom).Min.Y = 40 :=
  ⟨⟨by decide, by decide⟩, ⟨by decide, by decide, by decide, by decide⟩,
   ((calcRect_right_bottom ⟨⟨2, 3⟩, ⟨102, 53⟩⟩ ⟨⟨5, 5⟩, ⟨35, 15⟩⟩ LayerAlignmentRight
      LayerVerticalAlignmentBottom).2.2.1 (by decide)).1,
   ((calcRect_right_bottom ⟨⟨2, 3⟩, ⟨102, 53⟩⟩ ⟨⟨5, 5⟩, ⟨35, 15⟩⟩ LayerAlignmentRight
      LayerVerticalAlignmentBottom).2.2.2.1 (by decide)).2,
   ((calcRect_right_bottom ⟨⟨2, 3⟩, ⟨102, 53⟩⟩ ⟨⟨5, 5⟩, ⟨35, 15⟩⟩ LayerAlignmentRight
      LayerVerticalAlignmentBottom).2.2.2.2.1 (by decide) (by decide)).2,
   ((calcRect_right_bottom ⟨⟨2, 3⟩, ⟨102, 53⟩⟩ ⟨⟨5, 5⟩, ⟨35, 15⟩⟩ LayerAlignmentRight
      LayerVerticalAlignmentBottom).2.2.2.2.2 (by decide) (by decide)).1⟩

/-- C5: `calcRect pRect sRect LayerAlignmentLeft LayerVerticalAlignmentTop` has
`Min.X = 0`, `Max.X = sRect.Max.X - sRect.Min.X`, `Min.Y = 0`,
`Max.Y = sRect.Max.Y - sRect.Min.Y`; so the result is the same for any other
parent and for any other source of the same width and height. -/
theorem calcRect_left_top (pRect sRect : image.Rectangle) :
    calcRect pRect sRect LayerAlignmentLeft LayerVerticalAlignmentTop
        = ⟨⟨0, 0⟩, ⟨intSub sRect.Max.X sRect.Min.X, intSub sRect.Max.Y sRect.Min.Y⟩⟩ ∧
    (∀ pRect' sRect' : image.Rectangle,
      intSub sRect'.Max.X sRect'.Min.X = intSub sRect.Max.X sRect.Min.X →
      intSub sRect'.Max.Y sRect'.Min.Y = intSub sRect.Max.Y sRect.Min.Y →
      calcRect pRect' sRect' LayerAlignmentLeft LayerVerticalAlignmentTop
        = calcRect pRect sRect LayerAlignmentLeft LayerVerticalAlignmentTop) ∧
    (IsInt (sRect.Max.X - sRect.Min.X) → IsInt (sRect.Max.Y - sRect.Min.Y) →
      calcRect pRect sRect LayerAlignmentLeft LayerVerticalAlignmentTop
        = ⟨⟨0, 0⟩, ⟨sRect.Max.X - sRect.Min.X, sRect.Max.Y - sRect.Min.Y⟩⟩) := by
  have key : ∀ p q : image.Rectangle,
      calcRect p q LayerAlignmentLeft LayerVerticalAlignmentTop
        = ⟨⟨0, 0⟩, ⟨intSub q.Max.X q.Min.X, intSub q.Max.Y q.Min.Y⟩⟩ := by
    intro p q
    simp [calcRect, horizontal_left, vertical_top, image.Rectangle.Dx, image.Rectangle.Dy]
  refine ⟨key _ _, ?_, ?_⟩
  · intro pRect' sRect' hx hy
    rw [key, key, hx, hy]
  · intro hx hy
    rw [key, intSub_of_isInt hx, intSub_of_isInt hy]

/-- Witness of C5: the source (4,9)-(10,11) against two parents and against its
translate (0,0)-(6,2). -/
theorem calcRect_left_top_witness :
    calcRect ⟨⟨1, 1⟩, ⟨2, 2⟩⟩ ⟨⟨0, 0⟩, ⟨6, 2⟩⟩ LayerAlignmentLeft LayerVerticalAlignmentTop
        = calcRect ⟨⟨0, 0⟩, ⟨90, 80⟩⟩ ⟨⟨4, 9⟩, ⟨10, 11⟩⟩ LayerAlignmentLeft
            LayerVerticalAlignmentTop ∧
    calcRect ⟨⟨0, 0⟩, ⟨90, 80⟩⟩ ⟨⟨4, 9⟩, ⟨10, 11⟩⟩ LayerAlignmentLeft
        LayerVerticalAlignmentTop = ⟨⟨0, 0⟩, ⟨10 - 4, 11 - 9⟩⟩ :=
  ⟨(calcRect_left_top ⟨⟨0, 0⟩, ⟨90, 80⟩⟩ ⟨⟨4, 9⟩, ⟨10, 11⟩⟩).2.1 ⟨⟨1, 1⟩, ⟨2, 2⟩⟩
      ⟨⟨0, 0⟩, ⟨6, 2⟩⟩ (by decide) (by decide),
   (calcRect_left_top ⟨⟨0, 0⟩, ⟨90, 80⟩⟩ ⟨⟨4, 9⟩, ⟨10, 11⟩⟩).2.2 (by decide) (by decide)⟩

/-- C6: every horizontal alignment value other than Left (1), Center (2) and
Right (3), that is Default (0) and every other integer, negative ones included,
copies the source's horizontal extent (`Min.X = sRect.Min.X`,
`Max.X = sRect.Max.X`); every vertical alignment value other than Top (1),
Middle (2) and Bottom (3) copies the source's vertical extent; so `calcRect`
with two unrecognised values returns `sRect`. -/
theorem calcRect_unrecognised (pRect sRect : image.Rectangle)
    (alignment : LayerAlignment) (verticalAlignment : LayerVerticalAlignment) :
    (LayerAlignmentDefault = 0 ∧ LayerAlignmentLeft = 1 ∧ LayerAlignmentCenter = 2 ∧
      LayerAlignmentRight = 3 ∧ LayerVerticalAlignmentDefault = 0 ∧
      LayerVerticalAlignmentTop = 1 ∧ LayerVerticalAlignmentMiddle = 2 ∧
      LayerVerticalAlignmentBottom = 3) ∧
    (alignment ≠ 1 → alignment ≠ 2 → alignment ≠ 3 →
      (calcRect pRect sRect alignment verticalAlignment).Min.X = sRect.Min.X ∧
      (calcRect pRect sRect alignment verticalAlignment).Max.X = sRect.Max.X) ∧
    (verticalAlignment ≠ 1 → verticalAlignment ≠ 2 → verticalAlignment ≠ 3 →
      (calcRect pRect sRect alignment verticalAlignment).Min.Y = sRect.Min.Y ∧
      (calcRect pRect sRect alignment verticalAlignment).Max.Y = sRect.Max.Y) ∧
    (alignment ≠ 1 → alignment ≠ 2 → alignment ≠ 3 →
      verticalAlignment ≠ 1 → verticalAlignment ≠ 2 → verticalAlignment ≠ 3 →
      calcRect pRect sRect alignment verticalAlignment = sRect) := by
  refine ⟨⟨rfl, rfl, rfl, rfl, rfl, rfl, rfl, rfl⟩, ?_, ?_, ?_⟩
  · intro h1 h2 h3
    simp [calcRect, horizontal_other pRect sRect alignment h1 h2 h3]
  · intro h1 h2 h3
    simp [calcRect, vertical_other pRect sRect verticalAlignment h1 h2 h3]
  · intro h1 h2 h3 k1 k2 k3
    simp [calcRect, horizontal_other pRect sRect alignment h1 h2 h3,
      vertical_other pRect sRect verticalAlignment k1 k2 k3]

/-- Witness of C6: the alignment values `-7` and `4`. -/
theorem calcRect_unrecognised_witness :
    calcRect ⟨⟨0, 0⟩, ⟨100, 100⟩⟩ ⟨⟨-3, 8⟩, ⟨12, 5⟩⟩ (-7) 4 = ⟨⟨-3, 8⟩, ⟨12, 5⟩⟩ :=
  (calcRect_unrecognised ⟨⟨0, 0⟩, ⟨100, 100⟩⟩ ⟨⟨-3, 8⟩, ⟨12, 5⟩⟩ (-7) 4).2.2.2
    (by decide) (by decide) (by decide) (by decide) (by decide) (by decide)

/-- C7: the two axes of `calcRect` never interact.  Two calls that agree on
`pRect.Min.X`, `pRect.Max.X`, `sRect.Min.X`, `sRect.Max.X` and the horizontal
alignment have the same `Min.X` and `Max.X`, whatever the Y coordinates and the
vertical alignments are; two calls that agree on the Y coordinates and the
vertical alignment have the same `Min.Y` and `Max.Y`; so the result for a pair of
alignments is the horizontal result of the horizontal alignment (under any
vertical one) paired with the vertical result of the vertical alignment (under
any horizontal one). -/
theorem calcRect_axes_independent (pRect sRect pRect' sRect' : image.Rectangle)
    (alignment alignment' : LayerAlignment)
    (verticalAlignment verticalAlignment' : LayerVerticalAlignment) :
    (pRect.Min.X = pRect'.Min.X → pRect.Max.X = pRect'.Max.X →
      sRect.Min.X = sRect'.Min.X → sRect.Max.X = sRect'.Max.X →
      (calcRect pRect sRect alignment verticalAlignment).Min.X
        = (calcRect pRect' sRect' alignment verticalAlignment').Min.X ∧
      (calcRect pRect sRect alignment verticalAlignment).Max.X
        = (calcRect pRect' sRect' alignment verticalAlignment').Max.X) ∧
    (pRect.Min.Y = pRect'.Min.Y → pRect.Max.Y = pRect'.Max.Y →
      sRect.Min.Y = sRect'.Min.Y → sRect.Max.Y = sRect'.Max.Y →
      (calcRect pRect sRect alignment verticalAlignment).Min.Y
        = (calcRect pRect' sRect' alignment' verticalAlignment).Min.Y ∧
      (calcRect pRect sRect alignment verticalAlignment).Max.Y
        = (calcRect pRect' sRect' alignment' verticalAlignment).Max.Y) ∧
    calcRect pRect sRect alignment verticalAlignment
      = ⟨⟨(calcRect pRect sRect alignment verticalAlignment').Min.X,
          (calcRect pRect sRect alignment' verticalAlignment).Min.Y⟩,
         ⟨(calcRect pRect sRect alignment verticalAlignment').Max.X,
          (calcRect pRect sRect alignment' verticalAlignment).Max.Y⟩⟩ := by
  refine ⟨?_, ?_, rfl⟩
  · intro h1 h2 h3 h4
    simp [calcRect, calcRect.horizontal, h1, h2, h3, h4]
  · intro h1 h2 h3 h4
    simp [calcRect, calcRect.vertical, h1, h2, h3, h4]

/-- Witness of C7: Left with Bottom against Left with Middle on rectangles that
differ only in Y, and against Center with Bottom on rectangles that differ only
in X. -/
theorem calcRect_axes_independent_witness :
    ((calcRect ⟨⟨0, 0⟩, ⟨100, 50⟩⟩ ⟨⟨5, 6⟩, ⟨35, 16⟩⟩ LayerAlignmentLeft
          LayerVerticalAlignmentBottom).Min.X
        = (calcRect ⟨⟨0, 9⟩, ⟨100, 11⟩⟩ ⟨⟨5, -1⟩, ⟨35, 70⟩⟩ LayerAlignmentLeft
          LayerVerticalAlignmentMiddle).Min.X ∧
      (calcRect ⟨⟨0, 0⟩, ⟨100, 50⟩⟩ ⟨⟨5, 6⟩, ⟨35, 16⟩⟩ LayerAlignmentLeft
          LayerVerticalAlignmentBottom).Max.X
        = (calcRect ⟨⟨0, 9⟩, ⟨100, 11⟩⟩ ⟨⟨5, -1⟩, ⟨35, 70⟩⟩ LayerAlignmentLeft
          LayerVerticalAlignmentMiddle).Max.X) ∧
    ((calcRect ⟨⟨0, 0⟩, ⟨100, 50⟩⟩ ⟨⟨5, 6⟩, ⟨35, 16⟩⟩ LayerAlignmentLeft
          LayerVerticalAlignmentBottom).Min.Y
        = (calcRect ⟨⟨7, 0⟩, ⟨8, 50⟩⟩ ⟨⟨-5, 6⟩, ⟨350, 16⟩⟩ LayerAlignmentCenter
          LayerVerticalAlignmentBottom).Min.Y ∧
      (calcRect ⟨⟨0, 0⟩, ⟨100, 50⟩⟩ ⟨⟨5, 6⟩, ⟨35, 16⟩⟩ LayerAlignmentLeft
          LayerVerticalAlignmentBottom).Max.Y
        = (calcRect ⟨⟨7, 0⟩, ⟨8, 50⟩⟩ ⟨⟨-5, 6⟩, ⟨350, 16⟩⟩ LayerAlignmentCenter
          LayerVerticalAlignmentBottom).Max.Y) :=
  ⟨(calcRect_axes_independent ⟨⟨0, 0⟩, ⟨100, 50⟩⟩ ⟨⟨5, 6⟩, ⟨35, 16⟩⟩ ⟨⟨0, 9⟩, ⟨100, 11⟩⟩
      ⟨⟨5, -1⟩, ⟨35, 70⟩⟩ LayerAlignmentLeft LayerAlignmentLeft LayerVerticalAlignmentBottom
      LayerVerticalAlignmentMiddle).1 (by decide) (by decide) (by decide) (by decide),
   (calcRect_axes_independent ⟨⟨0, 0⟩, ⟨100, 50⟩⟩ ⟨⟨5, 6⟩, ⟨35, 16⟩⟩ ⟨⟨7, 0⟩, ⟨8, 50⟩⟩
      ⟨⟨-5, 6⟩, ⟨350, 16⟩⟩ LayerAlignmentLeft LayerAlignmentCenter
      LayerVerticalAlignmentBottom LayerVerticalAlignmentBottom).2.1 (by decide) (by decide)
      (by decide) (by decide)⟩

/-- C8: Center bisects the remaining space and gives the odd pixel to the right
gap, so the child sits one pixel nearer the left edge.  For every parent and
source with `0 ≤ pWidth - sWidth`, under `LayerAlignmentCenter` the left gap
`Min.X` and the right gap `pWidth - Max.X` sum to `pWidth - sWidth`, are equal
when `pWidth - sWidth` is even, and the left gap is one less than the right gap
when it is odd; the same holds for `LayerVerticalAlignmentMiddle` with the top
gap `Min.Y` and the bottom gap `pHeight - Max.Y`.  The first two parts take the
differences as Go's `int` computes them, the last two take them in the
mathematical integers when nothing overflows. -/
theorem calcRect_center_bisects (pRect sRect : image.Rectangle)
    (alignment : LayerAlignment) (verticalAlignment : LayerVerticalAlignment) :
    (0 ≤ intSub pRect.Dx sRect.Dx →
      (calcRect pRect sRect LayerAlignmentCenter verticalAlignment).Min.X
          + intSub pRect.Dx (calcRect pRect sRect LayerAlignmentCenter verticalAlignment).Max.X
        = intSub pRect.Dx sRect.Dx ∧
      (intSub pRect.Dx sRect.Dx % 2 = 0 →
        (calcRect pRect sRect LayerAlignmentCenter verticalAlignment).Min.X
          = intSub pRect.Dx
              (calcRect pRect sRect LayerAlignmentCenter verticalAlignment).Max.X) ∧
      (intSub pRect.Dx sRect.Dx % 2 = 1 →
        (calcRect pRect sRect LayerAlignmentCenter verticalAlignment).Min.X + 1
          = intSub pRect.Dx
              (calcRect pRect sRect LayerAlignmentCenter verticalAlignment).Max.X)) ∧
    (0 ≤ intSub pRect.Dy sRect.Dy →
      (calcRect pRect sRect alignment LayerVerticalAlignmentMiddle).Min.Y
          + intSub pRect.Dy (calcRect pRect sRect alignment LayerVerticalAlignmentMiddle).Max.Y
        = intSub pRect.Dy sRect.Dy ∧
      (intSub pRect.Dy sRect.Dy % 2 = 0 →
        (calcRect pRect sRect alignment LayerVerticalAlignmentMiddle).Min.Y
          = intSub pRect.Dy
              (calcRect pRect sRect alignment LayerVerticalAlignmentMiddle).Max.Y) ∧
      (intSub pRect.Dy sRect.Dy % 2 = 1 →
        (calcRect pRect sRect alignment LayerVerticalAlignmentMiddle).Min.Y + 1
          = intSub pRect.Dy
              (calcRect pRect sRect alignment LayerVerticalAlignmentMiddle).Max.Y)) ∧
    (NoOverflow pRect.Min.X pRect.Max.X sRect.Min.X sRect.Max.X →
      0 ≤ (pRect.Max.X - pRect.Min.X) - (sRect.Max.X - sRect.Min.X) →
      (calcRect pRect sRect LayerAlignmentCenter verticalAlignment).Min.X
          + ((pRect.Max.X - pRect.Min.X)
              - (calcRect pRect sRect LayerAlignmentCenter verticalAlignment).Max.X)
        = (pRect.Max.X - pRect.Min.X) - (sRect.Max.X - sRect.Min.X) ∧
      (((pRect.Max.X - pRect.Min.X) - (sRect.Max.X - sRect.Min.X)) % 2 = 0 →
        (calcRect pRect sRect LayerAlignmentCenter verticalAlignment).Min.X
          = (pRect.Max.X - pRect.Min.X)
              - (calcRect pRect sRect LayerAlignmentCenter verticalAlignment).Max.X) ∧
      (((pRect.Max.X - pRect.Min.X) - (sRect.Max.X - sRect.Min.X)) % 2 = 1 →
        (calcRect pRect sRect LayerAlignmentCenter verticalAlignment).Min.X + 1
          = (pRect.Max.X - pRect.Min.X)
              - (calcRect pRect sRect LayerAlignmentCenter verticalAlignment).Max.X)) ∧
    (NoOverflow pRect.Min.Y pRect.Max.Y sRect.Min.Y sRect.Max.Y →
      0 ≤ (pRect.Max.Y - pRect.Min.Y) - (sRect.Max.Y - sRect.Min.Y) →
      (calcRect pRect sRect alignment LayerVerticalAlignmentMiddle).Min.Y
          + ((pRect.Max.Y - pRect.Min.Y)
              - (calcRect pRect sRect alignment LayerVerticalAlignmentMiddle).Max.Y)
        = (pRect.Max.Y - pRect.Min.Y) - (sRect.Max.Y - sRect.Min.Y) ∧
      (((pRect.Max.Y - pRect.Min.Y) - (sRect.Max.Y - sRect.Min.Y)) % 2 = 0 →
        (calcRect pRect sRect alignment LayerVerticalAlignmentMiddle).Min.Y
          = (pRect.Max.Y - pRect.Min.Y)
              - (calcRect pRect sRect alignment LayerVerticalAlignmentMiddle).Max.Y) ∧
      (((pRect.Max.Y - pRect.Min.Y) - (sRect.Max.Y - sRect.Min.Y)) % 2 = 1 →
        (calcRect pRect sRect alignment LayerVerticalAlignmentMiddle).Min.Y + 1
          = (pRect.Max.Y - pRect.Min.Y)
              - (calcRect pRect sRect alignment LayerVerticalAlignmentMiddle).Max.Y)) := by
  refine ⟨?_, ?_, ?_, ?_⟩
  · intro hw
    simp only [calcRect, horizontal_center]
    exact center_gaps pRect.Dx sRect.Dx hw
  · intro hw
    simp only [calcRect, vertical_middle]
    exact center_gaps pRect.Dy sRect.Dy hw
  · intro h hw
    simp only [calcRect, horizontal_exact pRect sRect LayerAlignmentCenter h]
    simp only [LayerAlignmentCenter, LayerAlignmentLeft]
    exact center_gaps_exact _ _ hw
  · intro h hw
    simp only [calcRect, vertical_exact pRect sRect LayerVerticalAlignmentMiddle h]
    simp only [LayerVerticalAlignmentMiddle, LayerVerticalAlignmentTop]
    exact center_gaps_exact _ _ hw

/-- Witness of C8: the source (3,4)-(13,10) in the parent (0,0)-(101,50); the
horizontal difference 91 is odd with gaps 45 and 46, the vertical difference 44
is even with gaps 22 and 22. -/
theorem calcRect_center_bisects_witness :
    (0 ≤ intSub (⟨⟨0, 0⟩, ⟨101, 50⟩⟩ : image.Rectangle).Dx
          (⟨⟨3, 4⟩, ⟨13, 10⟩⟩ : image.Rectangle).Dx ∧
      intSub (⟨⟨0, 0⟩, ⟨101, 50⟩⟩ : image.Rectangle).Dx
          (⟨⟨3, 4⟩, ⟨13, 10⟩⟩ : image.Rectangle).Dx % 2 = 1 ∧
      (calcRect ⟨⟨0, 0⟩, ⟨101, 50⟩⟩ ⟨⟨3, 4⟩, ⟨13, 10⟩⟩ LayerAlignmentCenter
          LayerVerticalAlignmentMiddle).Min.X + 1
        = intSub (⟨⟨0, 0⟩, ⟨101, 50⟩⟩ : image.Rectangle).Dx
            (calcRect ⟨⟨0, 0⟩, ⟨101, 50⟩⟩ ⟨⟨3, 4⟩, ⟨13, 10⟩⟩ LayerAlignmentCenter
              LayerVerticalAlignmentMiddle).Max.X) ∧
    (NoOverflow 0 50 4 10 ∧ (0 : Int) ≤ (50 - 0) - (10 - 4) ∧
      ((50 - 0) - (10 - 4) : Int) % 2 = 0 ∧
      (calcRect ⟨⟨0, 0⟩, ⟨101, 50⟩⟩ ⟨⟨3, 4⟩, ⟨13, 10⟩⟩ LayerAlignmentCenter
          LayerVerticalAlignmentMiddle).Min.Y
        = (50 - 0)
            - (calcRect ⟨⟨0, 0⟩, ⟨101, 50⟩⟩ ⟨⟨3, 4⟩, ⟨13, 10⟩⟩ LayerAlignmentCenter
              LayerVerticalAlignmentMiddle).Max.Y) :=
  ⟨⟨by decide, by decide,
    ((calcRect_center_bisects ⟨⟨0, 0⟩, ⟨101, 50⟩⟩ ⟨⟨3, 4⟩, ⟨13, 10⟩⟩ LayerAlignmentCenter
      LayerVerticalAlignmentMiddle).1 (by decide)).2.2 (by decide)⟩,
   ⟨by decide, by decide, by decide,
    ((calcRect_center_bisects ⟨⟨0, 0⟩, ⟨101, 50⟩⟩ ⟨⟨3, 4⟩, ⟨13, 10⟩⟩ LayerAlignmentCenter
      LayerVerticalAlignmentMiddle).2.2.2 (by decide) (by decide)).2.1 (by decide)⟩⟩

/-! ## The claims about `WriteToPNG` and `WriteToJPEG` -/

theorem flush_trace_no_close (env : Env) (b : bufio.Writer) (f : File) :
    Event.close f ∉ (b.Flush env).trace := by
  unfold bufio.Writer.Flush
  split
  · simp
  · split <;> simp

theorem flush_trace_has_flush (env : Env) (b : bufio.Writer) :
    Event.flush b.wr ∈ (b.Flush env).trace := by
  unfold bufio.Writer.Flush
  split
  · simp
  · split <;> simp

/-- C9: `WriteToPNG` and `WriteToJPEG` report the first failure among their three
steps, unchanged: the creation error if creating the file fails; else the
encoder's error if the encoder returns one; else the result of flushing the
buffered writer.  The result is nil if and only if creation, encoding and
flushing all succeeded. -/
theorem writeTo_reports_first_failure (env : Env) (l : Layer) (file : String)
    (quality : Int) :
    ((WriteToPNG env l file).err =
      match env.osCreate file with
      | Except.error err => some err
      | Except.ok nFile =>
        match env.pngEncode (Destination.file nFile) l.Render with
        | some err => some err
        | none => ((bufio.NewWriter nFile).Flush env).err) ∧
    ((WriteToPNG env l file).err = none ↔
      ∃ nFile, env.osCreate file = Except.ok nFile ∧
        env.pngEncode (Destination.file nFile) l.Render = none ∧
        ((bufio.NewWriter nFile).Flush env).err = none) ∧
    ((WriteToJPEG env l file quality).err =
      match env.osCreate file with
      | Except.error err => some err
      | Except.ok nFile =>
        match env.jpegEncode (Destination.file nFile) l.Render quality with
        | some err => some err
        | none => ((bufio.NewWriter nFile).Flush env).err) ∧
    ((WriteToJPEG env l file quality).err = none ↔
      ∃ nFile, env.osCreate file = Except.ok nFile ∧
        env.jpegEncode (Destination.file nFile) l.Render quality = none ∧
        ((bufio.NewWriter nFile).Flush env).err = none) := by
  refine ⟨?_, ?_, ?_, ?_⟩
  · unfold WriteToPNG WriteToPNG.body
    cases hc : env.osCreate file with
    | error e => rfl
    | ok nFile =>
      cases he : env.pngEncode (Destination.file nFile) l.Render <;> simp [he]
  · unfold WriteToPNG WriteToPNG.body
    cases hc : env.osCreate file with
    | error e => simp
    | ok nFile =>
      cases he : env.pngEncode (Destination.file nFile) l.Render <;> simp [he]
  · unfold WriteToJPEG WriteToJPEG.body
    cases hc : env.osCreate file with
    | error e => rfl
    | ok nFile =>
      cases he : env.jpegEncode (Destination.file nFile) l.Render quality <;> simp [he]
  · unfold WriteToJPEG WriteToJPEG.body
    cases hc : env.osCreate file with
    | error e => simp
    | ok nFile =>
      cases he : env.jpegEncode (Destination.file nFile) l.Render quality <;> simp [he]

/-- C10: in `WriteToPNG` and `WriteToJPEG`, whenever file creation succeeds the
created handle is closed exactly once before the function returns, on every exit
path: the trace of the call ends with the close of that handle and holds no
other close of any handle, whether the encoder failed or the flush result was
returned; when the encoder succeeds the flush is in the trace before the close.
When creation fails no handle is closed. -/
theorem writeTo_closes_once (env : Env) (l : Layer) (file : String) (quality : Int) :
    (∀ nFile, env.osCreate file = Except.ok nFile →
      ∃ pre, (WriteToPNG env l file).trace = pre ++ [Event.close nFile] ∧
        (∀ f, Event.close f ∉ pre) ∧
        (env.pngEncode (Destination.file nFile) l.Render = none →
          Event.flush nFile ∈ pre)) ∧
    (∀ err, env.osCreate file = Except.error err →
      ∀ f, Event.close f ∉ (WriteToPNG env l file).trace) ∧
    (∀ nFile, env.osCreate file = Except.ok nFile →
      ∃ pre, (WriteToJPEG env l file quality).trace = pre ++ [Event.close nFile] ∧
        (∀ f, Event.close f ∉ pre) ∧
        (env.jpegEncode (Destination.file nFile) l.Render quality = none →
          Event.flush nFile ∈ pre)) ∧
    (∀ err, env.osCreate file = Except.error err →
      ∀ f, Event.close f ∉ (WriteToJPEG env l file quality).trace) := by
  refine ⟨?_, ?_, ?_, ?_⟩
  · intro nFile hc
    refine ⟨Event.create file :: (WriteToPNG.body env l nFile).trace, ?_, ?_, ?_⟩
    · simp [WriteToPNG, hc]
    · intro f
      unfold WriteToPNG.body
      cases he : env.pngEncode (Destination.file nFile) l.Render with
      | some e => simp [he]
      | none => simpa [he] using flush_trace_no_close env (bufio.NewWriter nFile) f
    · intro he
      have := flush_trace_has_flush env (bufio.NewWriter nFile)
      simp only [WriteToPNG.body, he]
      simp only [bufio.NewWriter] at this ⊢
      simp [this]
  · intro err hc f
    simp [WriteToPNG, hc]
  · intro nFile hc
    refine ⟨Event.create file :: (WriteToJPEG.body env l nFile quality).trace, ?_, ?_, ?_⟩
    · simp [WriteToJPEG, hc]
    · intro f
      unfold WriteToJPEG.body
      cases he : env.jpegEncode (Destination.file nFile) l.Render quality with
      | some e => simp [he]
      | none => simpa [he] using flush_trace_no_close env (bufio.NewWriter nFile) f
    · intro he
      have := flush_trace_has_flush env (bufio.NewWriter nFile)
      simp only [WriteToJPEG.body, he]
      simp only [bufio.NewWriter] at this ⊢
      simp [this]
  · intro err hc f
    simp [WriteToJPEG, hc]

/-- Witness of C10: a PNG run whose encoder succeeds, a JPEG run whose encoder
fails, and a run whose file cannot be created. -/
theorem writeTo_closes_once_witness :
    (∃ pre, (WriteToPNG sampleEnv sampleLayer "out.png").trace
        = pre ++ [Event.close { fd := 3 }] ∧
      (∀ f, Event.close f ∉ pre) ∧
      (sampleEnv.pngEncode (Destination.file { fd := 3 }) sampleLayer.Render = none →
        Event.flush { fd := 3 } ∈ pre)) ∧
    (∃ pre, (WriteToJPEG sampleEnv sampleLayer "out.jpg" 90).trace
        = pre ++ [Event.close { fd := 3 }] ∧
      (∀ f, Event.close f ∉ pre) ∧
      (sampleEnv.jpegEncode (Destination.file { fd := 3 }) sampleLayer.Render 90 = none →
        Event.flush { fd := 3 } ∈ pre)) ∧
    (∀ f, Event.close f ∉ (WriteToPNG deniedEnv sampleLayer "out.png").trace) :=
  ⟨(writeTo_closes_once sampleEnv sampleLayer "out.png" 90).1 { fd := 3 } rfl,
   (writeTo_closes_once sampleEnv sampleLayer "out.jpg" 90).2.2.1 { fd := 3 } rfl,
   (writeTo_closes_once deniedEnv sampleLayer "out.png" 90).2.1
     { msg := "permission denied" } rfl⟩

/-! ## Totality, constructors and the sign of the centring offset -/

theorem intDivChecked_two (w : Int) : intDivChecked w 2 = some (intDiv w 2) := by
  simp [intDivChecked]

theorem horizontalChecked_eq (pRect sRect : image.Rectangle) (alignment : LayerAlignment) :
    calcRect.horizontalChecked pRect sRect alignment
      = some (calcRect.horizontal pRect sRect alignment) := by
  unfold calcRect.horizontalChecked calcRect.horizontal
  simp only [intDivChecked_two, Option.some_bind]
  split_ifs <;> rfl

theorem verticalChecked_eq (pRect sRect : image.Rectangle)
    (verticalAlignment : LayerVerticalAlignment) :
    calcRect.verticalChecked pRect sRect verticalAlignment
      = some (calcRect.vertical pRect sRect verticalAlignment) := by
  unfold calcRect.verticalChecked calcRect.vertical
  simp only [intDivChecked_two, Option.some_bind]
  split_ifs <;> rfl

theorem isInt_zero : IsInt 0 := by decide

theorem horizontal_isInt (pRect sRect : image.Rectangle) (alignment : LayerAlignment)
    (h1 : IsInt sRect.Min.X) (h2 : IsInt sRect.Max.X) :
    IsInt (calcRect.horizontal pRect sRect alignment).1 ∧
    IsInt (calcRect.horizontal pRect sRect alignment).2 := by
  unfold calcRect.horizontal
  split_ifs
  · exact ⟨h1, h2⟩
  · exact ⟨isInt_zero, wrapInt_isInt _⟩
  · exact ⟨wrapInt_isInt _, wrapInt_isInt _⟩
  · exact ⟨wrapInt_isInt _, wrapInt_isInt _⟩
  · exact ⟨h1, h2⟩

theorem vertical_isInt (pRect sRect : image.Rectangle)
    (verticalAlignment : LayerVerticalAlignment)
    (h1 : IsInt sRect.Min.Y) (h2 : IsInt sRect.Max.Y) :
    IsInt (calcRect.vertical pRect sRect verticalAlignment).1 ∧
    IsInt (calcRect.vertical pRect sRect verticalAlignment).2 := by
  unfold calcRect.vertical
  split_ifs
  · exact ⟨h1, h2⟩
  · exact ⟨isInt_zero, wrapInt_isInt _⟩
  · exact ⟨wrapInt_isInt _, wrapInt_isInt _⟩
  · exact ⟨wrapInt_isInt _, wrapInt_isInt _⟩
  · exact ⟨h1, h2⟩

/-- C11: `calcRect` is total and deterministic.  For every pair of rectangles,
empty and negative-size ones included, and every pair of alignment values, the
function with its panics made explicit returns a rectangle, the one `calcRect`
computes: the only division is by the constant 2, so there is no panic path.
Two calls with identical inputs return identical rectangles, and the
coordinates returned for a source with `int` coordinates are values of `int`. -/
theorem calcRect_total_deterministic (pRect sRect pRect' sRect' : image.Rectangle)
    (alignment alignment' : LayerAlignment)
    (verticalAlignment verticalAlignment' : LayerVerticalAlignment) :
    calcRectChecked pRect sRect alignment verticalAlignment
      = some (calcRect pRect sRect alignment verticalAlignment) ∧
    (pRect = pRect' → sRect = sRect' → alignment = alignment' →
      verticalAlignment = verticalAlignment' →
      calcRect pRect sRect alignment verticalAlignment
        = calcRect pRect' sRect' alignment' verticalAlignment') ∧
    (sRect.IsInt → (calcRect pRect sRect alignment verticalAlignment).IsInt) := by
  refine ⟨?_, ?_, ?_⟩
  · unfold calcRectChecked calcRect
    rw [horizontalChecked_eq, verticalChecked_eq]
    rfl
  · intro hp hs ha hv
    rw [hp, hs, ha, hv]
  · intro h
    obtain ⟨h1, h2, h3, h4⟩ := h
    have hx := horizontal_isInt pRect sRect alignment h1 h3
    have hy := vertical_isInt pRect sRect verticalAlignment h2 h4
    exact ⟨hx.1, hy.1, hx.2, hy.2⟩

/-- Witness of C11: an empty parent and a source of negative width, centred. -/
theorem calcRect_total_deterministic_witness :
    calcRect ⟨⟨5, 5⟩, ⟨5, 5⟩⟩ ⟨⟨9, 0⟩, ⟨2, 0⟩⟩ LayerAlignmentCenter
        LayerVerticalAlignmentMiddle
      = calcRect ⟨⟨5, 5⟩, ⟨5, 5⟩⟩ ⟨⟨9, 0⟩, ⟨2, 0⟩⟩ LayerAlignmentCenter
        LayerVerticalAlignmentMiddle ∧
    (calcRect ⟨⟨5, 5⟩, ⟨5, 5⟩⟩ ⟨⟨9, 0⟩, ⟨2, 0⟩⟩ LayerAlignmentCenter
        LayerVerticalAlignmentMiddle).IsInt :=
  ⟨(calcRect_total_deterministic ⟨⟨5, 5⟩, ⟨5, 5⟩⟩ ⟨⟨9, 0⟩, ⟨2, 0⟩⟩ ⟨⟨5, 5⟩, ⟨5, 5⟩⟩
      ⟨⟨9, 0⟩, ⟨2, 0⟩⟩ LayerAlignmentCenter LayerAlignmentCenter
      LayerVerticalAlignmentMiddle LayerVerticalAlignmentMiddle).2.1 rfl rfl rfl rfl,
   (calcRect_total_deterministic ⟨⟨5, 5⟩, ⟨5, 5⟩⟩ ⟨⟨9, 0⟩, ⟨2, 0⟩⟩ ⟨⟨5, 5⟩, ⟨5, 5⟩⟩
      ⟨⟨9, 0⟩, ⟨2, 0⟩⟩ LayerAlignmentCenter LayerAlignmentCenter
      LayerVerticalAlignmentMiddle LayerVerticalAlignmentMiddle).2.2 (by decide)⟩

/-- C12: for all integers `x`, `y`, `NewPoint x y` is the `Point` with `X = x` and
`Y = y`, and for all integers `w`, `h`, `NewSize w h` is the `Size` with
`Width = w` and `Height = h`: nothing is swapped, clamped or validated, and
negative values are kept. -/
theorem newPoint_newSize (x y w h : Int) :
    NewPoint x y = { X := x, Y := y } ∧ (NewPoint x y).X = x ∧ (NewPoint x y).Y = y ∧
    NewSize w h = { Width := w, Height := h } ∧ (NewSize w h).Width = w ∧
    (NewSize w h).Height = h ∧
    NewPoint (-3) 4 = { X := -3, Y := 4 } ∧ NewSize (-1) (-2) = { Width := -1, Height := -2 } :=
  ⟨rfl, rfl, rfl, rfl, rfl, rfl, rfl, rfl⟩

theorem intSub_swap (a b : Int) (h : intSub a b ≠ minInt) : intSub b a = -(intSub a b) := by
  unfold intSub wrapInt minInt intModulus at *
  omega

theorem tdiv_two_neg (w : Int) : Int.tdiv (-w) 2 = -(Int.tdiv w 2) := Int.neg_tdiv w 2

/-- The centring offset when the extents are exchanged. -/
theorem center_offset_swap (pW sW : Int) (h : intSub pW sW ≠ minInt) :
    Int.tdiv (intSub sW pW) 2 = -(Int.tdiv (intSub pW sW) 2) := by
  rw [intSub_swap pW sW h, tdiv_two_neg]

/-- The centring offset when the source is longer by an odd amount. -/
theorem center_offset_odd (pW sW : Int) (hd : 0 < intSub sW pW)
    (ho : intSub sW pW % 2 = 1) :
    Int.tdiv (intSub pW sW) 2 = -((intSub sW pW - 1) / 2) ∧
    Int.tdiv (intSub pW sW) 2 ≠ -((intSub sW pW + 1) / 2) := by
  have hne : intSub sW pW ≠ minInt := by
    unfold minInt
    omega
  rw [intSub_swap sW pW hne, tdiv_two_neg, tdiv_two_of_nonneg (Int.le_of_lt hd)]
  constructor <;> omega

/-- C13: Center divides with truncation toward zero, so the centring offset is an
odd function of the size difference.  For all widths `a` and `b` whose
difference does not overflow (it is enough that the `int` difference is not the
smallest `int`), the `Min.X` that `LayerAlignmentCenter` produces for parent
width `b` and source width `a` is the negation of the `Min.X` it produces for
parent width `a` and source width `b`.  When the source is wider than the parent
by an odd amount `d`, `Min.X = -((d - 1) / 2)`, not `-((d + 1) / 2)`; parent
width 10 and source width 13 give `Min.X = -1`, `Max.X = 12`.  The same holds
for `LayerVerticalAlignmentMiddle`. -/
theorem calcRect_center_odd_function (pRect sRect pRect' sRect' : image.Rectangle)
    (alignment alignment' : LayerAlignment)
    (verticalAlignment verticalAlignment' : LayerVerticalAlignment) :
    (pRect'.Dx = sRect.Dx → sRect'.Dx = pRect.Dx → intSub pRect.Dx sRect.Dx ≠ minInt →
      (calcRect pRect' sRect' LayerAlignmentCenter verticalAlignment').Min.X
        = -(calcRect pRect sRect LayerAlignmentCenter verticalAlignment).Min.X) ∧
    (pRect'.Dy = sRect.Dy → sRect'.Dy = pRect.Dy → intSub pRect.Dy sRect.Dy ≠ minInt →
      (calcRect pRect' sRect' alignment' LayerVerticalAlignmentMiddle).Min.Y
        = -(calcRect pRect sRect alignment LayerVerticalAlignmentMiddle).Min.Y) ∧
    (0 < intSub sRect.Dx pRect.Dx → intSub sRect.Dx pRect.Dx % 2 = 1 →
      (calcRect pRect sRect LayerAlignmentCenter verticalAlignment).Min.X
        = -((intSub sRect.Dx pRect.Dx - 1) / 2) ∧
      (calcRect pRect sRect LayerAlignmentCenter verticalAlignment).Min.X
        ≠ -((intSub sRect.Dx pRect.Dx + 1) / 2)) ∧
    (0 < intSub sRect.Dy pRect.Dy → intSub sRect.Dy pRect.Dy % 2 = 1 →
      (calcRect pRect sRect alignment LayerVerticalAlignmentMiddle).Min.Y
        = -((intSub sRect.Dy pRect.Dy - 1) / 2) ∧
      (calcRect pRect sRect alignment LayerVerticalAlignmentMiddle).Min.Y
        ≠ -((intSub sRect.Dy pRect.Dy + 1) / 2)) ∧
    (pRect.Dx = 10 → sRect.Dx = 13 →
      (calcRect pRect sRect LayerAlignmentCenter verticalAlignment).Min.X = -1 ∧
      (calcRect pRect sRect LayerAlignmentCenter verticalAlignment).Max.X = 12) ∧
    (pRect.Dy = 10 → sRect.Dy = 13 →
      (calcRect pRect sRect alignment LayerVerticalAlignmentMiddle).Min.Y = -1 ∧
      (calcRect pRect sRect alignment LayerVerticalAlignmentMiddle).Max.Y = 12) := by
  refine ⟨?_, ?_, ?_, ?_, ?_, ?_⟩
  · intro h1 h2 h3
    simp only [calcRect, horizontal_center, h1, h2]
    exact center_offset_swap _ _ h3
  · intro h1 h2 h3
    simp only [calcRect, vertical_middle, h1, h2]
    exact center_offset_swap _ _ h3
  · intro hd ho
    simp only [calcRect, horizontal_center]
    exact center_offset_odd _ _ hd ho
  · intro hd ho
    simp only [calcRect, vertical_middle]
    exact center_offset_odd _ _ hd ho
  · intro hp hs
    simp only [calcRect, horizontal_center, hp, hs]
    exact ⟨by decide, by decide⟩
  · intro hp hs
    simp only [calcRect, vertical_middle, hp, hs]
    exact ⟨by decide, by decide⟩

/-- Witness of C13: parent (0,0)-(10,10) and source (2,2)-(15,15), against
parent (0,0)-(13,13) and source (1,1)-(11,11). -/
theorem calcRect_center_odd_function_witness :
    ((calcRect ⟨⟨0, 0⟩, ⟨13, 13⟩⟩ ⟨⟨1, 1⟩, ⟨11, 11⟩⟩ LayerAlignmentCenter
        LayerVerticalAlignmentMiddle).Min.X
      = -(calcRect ⟨⟨0, 0⟩, ⟨10, 10⟩⟩ ⟨⟨2, 2⟩, ⟨15, 15⟩⟩ LayerAlignmentCenter
        LayerVerticalAlignmentMiddle).Min.X) ∧
    ((calcRect ⟨⟨0, 0⟩, ⟨10, 10⟩⟩ ⟨⟨2, 2⟩, ⟨15, 15⟩⟩ LayerAlignmentCenter
        LayerVerticalAlignmentMiddle).Min.X
      = -((intSub (⟨⟨2, 2⟩, ⟨15, 15⟩⟩ : image.Rectangle).Dx
            (⟨⟨0, 0⟩, ⟨10, 10⟩⟩ : image.Rectangle).Dx - 1) / 2)) ∧
    ((calcRect ⟨⟨0, 0⟩, ⟨10, 10⟩⟩ ⟨⟨2, 2⟩, ⟨15, 15⟩⟩ LayerAlignmentCenter
        LayerVerticalAlignmentMiddle).Min.X = -1 ∧
      (calcRect ⟨⟨0, 0⟩, ⟨10, 10⟩⟩ ⟨⟨2, 2⟩, ⟨15, 15⟩⟩ LayerAlignmentCenter
        LayerVerticalAlignmentMiddle).Max.X = 12) :=
  ⟨(calcRect_center_odd_function ⟨⟨0, 0⟩, ⟨10, 10⟩⟩ ⟨⟨2, 2⟩, ⟨15, 15⟩⟩ ⟨⟨0, 0⟩, ⟨13, 13⟩⟩
      ⟨⟨1, 1⟩, ⟨11, 11⟩⟩ LayerAlignmentCenter LayerAlignmentCenter
      LayerVerticalAlignmentMiddle LayerVerticalAlignmentMiddle).1
      (by decide) (by decide) (by decide),
   ((calcRect_center_odd_function ⟨⟨0, 0⟩, ⟨10, 10⟩⟩ ⟨⟨2, 2⟩, ⟨15, 15⟩⟩ ⟨⟨0, 0⟩, ⟨13, 13⟩⟩
      ⟨⟨1, 1⟩, ⟨11, 11⟩⟩ LayerAlignmentCenter LayerAlignmentCenter
      LayerVerticalAlignmentMiddle LayerVerticalAlignmentMiddle).2.2.1
      (by decide) (by decide)).1,
   (calcRect_center_odd_function ⟨⟨0, 0⟩, ⟨10, 10⟩⟩ ⟨⟨2, 2⟩, ⟨15, 15⟩⟩ ⟨⟨0, 0⟩, ⟨13, 13⟩⟩
      ⟨⟨1, 1⟩, ⟨11, 11⟩⟩ LayerAlignmentCenter LayerAlignmentCenter
      LayerVerticalAlignmentMiddle LayerVerticalAlignmentMiddle).2.2.2.2.1
      (by decide) (by decide)⟩

/-! ## The encoder call and the flush of the output routines -/

/-- Flushing a writer that was just made over a file: nothing to write, no error. -/
theorem flush_newWriter (env : Env) (f : File) :
    (bufio.NewWriter f).Flush env = { err := none, trace := [Event.flush f] } := by
  simp [bufio.Writer.Flush, bufio.NewWriter]

theorem writeToPNG_ok (env : Env) (l : Layer) (file : String) (nFile : File)
    (hc : env.osCreate file = Except.ok nFile) :
    WriteToPNG env l file =
      match env.pngEncode (Destination.file nFile) l.Render with
      | some err =>
        { err := some err,
          trace := [Event.create file, Event.render,
            Event.pngEncode (Destination.file nFile) l.Render, Event.close nFile] }
      | none =>
        { err := none,
          trace := [Event.create file, Event.render,
            Event.pngEncode (Destination.file nFile) l.Render, Event.flush nFile,
            Event.close nFile] } := by
  unfold WriteToPNG WriteToPNG.body
  rw [hc]
  cases he : env.pngEncode (Destination.file nFile) l.Render <;>
    simp [he, flush_newWriter]

theorem writeToJPEG_ok (env : Env) (l : Layer) (file : String) (quality : Int)
    (nFile : File) (hc : env.osCreate file = Except.ok nFile) :
    WriteToJPEG env l file quality =
      match env.jpegEncode (Destination.file nFile) l.Render quality with
      | some err =>
        { err := some err,
          trace := [Event.create file, Event.render,
            Event.jpegEncode (Destination.file nFile) l.Render quality,
            Event.close nFile] }
      | none =>
        { err := none,
          trace := [Event.create file, Event.render,
            Event.jpegEncode (Destination.file nFile) l.Render quality,
            Event.flush nFile, Event.close nFile] } := by
  unfold WriteToJPEG WriteToJPEG.body
  rw [hc]
  cases he : env.jpegEncode (Destination.file nFile) l.Render quality <;>
    simp [he, flush_newWriter]

/-- C14: `WriteToJPEG` passes the quality through.  For every integer `quality`,
values outside 1..100 included, when file creation succeeds the encoder is
called exactly once, with `Options.Quality` equal to the caller's `quality` and
with the image that the single call of the layer's `Render` returned, and the
result of that call is what the encoder answers for this very quality; when
creation fails the encoder is not called. -/
theorem writeToJPEG_quality_passthrough (env : Env) (l : Layer) (file : String)
    (quality : Int) :
    (∀ nFile, env.osCreate file = Except.ok nFile →
      (WriteToJPEG env l file quality).trace.filter Event.isEncode
        = [Event.jpegEncode (Destination.file nFile) l.Render quality] ∧
      (WriteToJPEG env l file quality).trace.filter Event.isRender = [Event.render] ∧
      (WriteToJPEG env l file quality).err
        = env.jpegEncode (Destination.file nFile) l.Render quality) ∧
    (∀ err, env.osCreate file = Except.error err →
      (WriteToJPEG env l file quality).trace.filter Event.isEncode = []) := by
  refine ⟨?_, ?_⟩
  · intro nFile hc
    rw [writeToJPEG_ok env l file quality nFile hc]
    cases he : env.jpegEncode (Destination.file nFile) l.Render quality <;>
      simp [List.filter, Event.isEncode, Event.isRender]
  · intro err hc
    simp [WriteToJPEG, hc, List.filter, Event.isEncode]

/-- Witness of C14: the qualities `0` and `250`, outside 1..100, reach the encoder
unchanged. -/
theorem writeToJPEG_quality_passthrough_witness :
    (WriteToJPEG sampleEnv sampleLayer "out.jpg" 0).trace.filter Event.isEncode
        = [Event.jpegEncode (Destination.file { fd := 3 }) sampleLayer.Render 0] ∧
    (WriteToJPEG sampleEnv sampleLayer "out.jpg" 250).trace.filter Event.isEncode
        = [Event.jpegEncode (Destination.file { fd := 3 }) sampleLayer.Render 250] ∧
    (WriteToJPEG deniedEnv sampleLayer "out.jpg" 250).trace.filter Event.isEncode = [] :=
  ⟨((writeToJPEG_quality_passthrough sampleEnv sampleLayer "out.jpg" 0).1 { fd := 3 }
      rfl).1,
   ((writeToJPEG_quality_passthrough sampleEnv sampleLayer "out.jpg" 250).1 { fd := 3 }
      rfl).1,
   (writeToJPEG_quality_passthrough deniedEnv sampleLayer "out.jpg" 250).2
      { msg := "permission denied" } rfl⟩

/-- C15: in `WriteToPNG` and `WriteToJPEG` the encoder is handed the file handle
itself and nothing is written to the buffered writer, so the final flush has no
data to write and cannot fail.  Whenever file creation succeeds, the only
encoder call has the file as its destination, the flush makes no `Write` and
returns nil, and the function's result is exactly the encoder's result (nil if
and only if the encoder returned nil).  The answer of closing the file never
changes the result. -/
theorem writeTo_result_is_encoder_result (env : Env) (l : Layer) (file : String)
    (quality : Int) :
    (∀ nFile, env.osCreate file = Except.ok nFile →
      (WriteToPNG env l file).trace.filter Event.isEncode
        = [Event.pngEncode (Destination.file nFile) l.Render] ∧
      (WriteToPNG env l file).trace.filter Event.isWrite = [] ∧
      ((bufio.NewWriter nFile).Flush env).err = none ∧
      (WriteToPNG env l file).err = env.pngEncode (Destination.file nFile) l.Render ∧
      ((WriteToPNG env l file).err = none ↔
        env.pngEncode (Destination.file nFile) l.Render = none)) ∧
    (∀ nFile, env.osCreate file = Except.ok nFile →
      (WriteToJPEG env l file quality).trace.filter Event.isEncode
        = [Event.jpegEncode (Destination.file nFile) l.Render quality] ∧
      (WriteToJPEG env l file quality).trace.filter Event.isWrite = [] ∧
      ((bufio.NewWriter nFile).Flush env).err = none ∧
      (WriteToJPEG env l file quality).err
        = env.jpegEncode (Destination.file nFile) l.Render quality ∧
      ((WriteToJPEG env l file quality).err = none ↔
        env.jpegEncode (Destination.file nFile) l.Render quality = none)) ∧
    (∀ closeAnswer : File → Option Error,
      WriteToPNG { env with fileClose := closeAnswer } l file = WriteToPNG env l file ∧
      WriteToJPEG { env with fileClose := closeAnswer } l file quality
        = WriteToJPEG env l file quality) := by
  refine ⟨?_, ?_, ?_⟩
  · intro nFile hc
    rw [writeToPNG_ok env l file nFile hc, flush_newWriter]
    cases he : env.pngEncode (Destination.file nFile) l.Render <;>
      simp [List.filter, Event.isEncode, Event.isWrite]
  · intro nFile hc
    rw [writeToJPEG_ok env l file quality nFile hc, flush_newWriter]
    cases he : env.jpegEncode (Destination.file nFile) l.Render quality <;>
      simp [List.filter, Event.isEncode, Event.isWrite]
  · intro closeAnswer
    exact ⟨rfl, rfl⟩

/-- Witness of C15: the PNG run of the sample environment succeeds as its encoder
does, the JPEG run returns the error of its encoder. -/
theorem writeTo_result_is_encoder_result_witness :
    (WriteToPNG sampleEnv sampleLayer "out.png").err = none ∧
    (WriteToJPEG sampleEnv sampleLayer "out.jpg" 90).err
      = some { msg := "jpeg: image is too large to encode" } ∧
    (WriteToPNG sampleEnv sampleLayer "out.png").trace.filter Event.isWrite = [] :=
  ⟨((writeTo_result_is_encoder_result sampleEnv sampleLayer "out.png" 90).1 { fd := 3 }
      rfl).2.2.2.1,
   ((writeTo_result_is_encoder_result sampleEnv sampleLayer "out.jpg" 90).2.1 { fd := 3 }
      rfl).2.2.2.1,
   ((writeTo_result_is_encoder_result sampleEnv sampleLayer "out.png" 90).1 { fd := 3 }
      rfl).2.1⟩

/-! ## Containment, position independence and idempotence -/

/-- For the three aligning values the horizontal result is a function of the two
widths. -/
theorem horizontal_of_extents (pRect sRect pRect' sRect' : image.Rectangle)
    (alignment : LayerAlignment)
    (ha : alignment = LayerAlignmentLeft ∨ alignment = LayerAlignmentCenter ∨
      alignment = LayerAlignmentRight)
    (hp : pRect.Dx = pRect'.Dx) (hs : sRect.Dx = sRect'.Dx) :
    calcRect.horizontal pRect sRect alignment
      = calcRect.horizontal pRect' sRect' alignment := by
  rcases ha with h | h | h
  · rw [h, horizontal_left, horizontal_left, hs]
  · rw [h, horizontal_center, horizontal_center, hp, hs]
  · rw [h, horizontal_right, horizontal_right, hp, hs]

/-- For the three aligning values the vertical result is a function of the two
heights. -/
theorem vertical_of_extents (pRect sRect pRect' sRect' : image.Rectangle)
    (verticalAlignment : LayerVerticalAlignment)
    (hv : verticalAlignment = LayerVerticalAlignmentTop ∨
      verticalAlignment = LayerVerticalAlignmentMiddle ∨
      verticalAlignment = LayerVerticalAlignmentBottom)
    (hp : pRect.Dy = pRect'.Dy) (hs : sRect.Dy = sRect'.Dy) :
    calcRect.vertical pRect sRect verticalAlignment
      = calcRect.vertical pRect' sRect' verticalAlignment := by
  rcases hv with h | h | h
  · rw [h, vertical_top, vertical_top, hs]
  · rw [h, vertical_middle, vertical_middle, hp, hs]
  · rw [h, vertical_bottom, vertical_bottom, hp, hs]

/-- An extent that fits is placed inside `[0, pW]`, along either axis: the pair
`(min, max)` of the Left, Center and Right computations. -/
theorem extent_contained (pW sW : Int) (hp : IsInt pW) (h0 : 0 ≤ sW) (h1 : sW ≤ pW) :
    ((0 : Int) ≤ 0 ∧ 0 ≤ sW ∧ sW ≤ pW) ∧
    (0 ≤ Int.tdiv (intSub pW sW) 2 ∧
      Int.tdiv (intSub pW sW) 2 ≤ intAdd (Int.tdiv (intSub pW sW) 2) sW ∧
      intAdd (Int.tdiv (intSub pW sW) 2) sW ≤ pW) ∧
    (0 ≤ intSub pW sW ∧ intSub pW sW ≤ intAdd (intSub pW sW) sW ∧
      intAdd (intSub pW sW) sW ≤ pW) := by
  have hw : intSub pW sW = pW - sW := by
    apply intSub_of_isInt
    unfold IsInt minInt maxInt at *
    omega
  have hn : 0 ≤ pW - sW := by omega
  rw [hw, tdiv_two_of_nonneg hn]
  have e1 : intAdd ((pW - sW) / 2) sW = (pW - sW) / 2 + sW := by
    apply wrapInt_of_isInt
    unfold IsInt minInt maxInt at *
    omega
  have e2 : intAdd (pW - sW) sW = pW := intAdd_sub_of_isInt hp
  rw [e1, e2]
  omega

theorem horizontal_contained (pRect sRect : image.Rectangle) (alignment : LayerAlignment)
    (h0 : 0 ≤ sRect.Dx) (h1 : sRect.Dx ≤ pRect.Dx)
    (ha : alignment = LayerAlignmentLeft ∨ alignment = LayerAlignmentCenter ∨
      alignment = LayerAlignmentRight) :
    0 ≤ (calcRect.horizontal pRect sRect alignment).1 ∧
    (calcRect.horizontal pRect sRect alignment).1
      ≤ (calcRect.horizontal pRect sRect alignment).2 ∧
    (calcRect.horizontal pRect sRect alignment).2 ≤ pRect.Dx := by
  have h := extent_contained pRect.Dx sRect.Dx (Dx_isInt pRect) h0 h1
  rcases ha with e | e | e
  · rw [e, horizontal_left]; exact h.1
  · rw [e, horizontal_center]; exact h.2.1
  · rw [e, horizontal_right]; exact h.2.2

theorem vertical_contained (pRect sRect : image.Rectangle)
    (verticalAlignment : LayerVerticalAlignment)
    (h0 : 0 ≤ sRect.Dy) (h1 : sRect.Dy ≤ pRect.Dy)
    (hv : verticalAlignment = LayerVerticalAlignmentTop ∨
      verticalAlignment = LayerVerticalAlignmentMiddle ∨
      verticalAlignment = LayerVerticalAlignmentBottom) :
    0 ≤ (calcRect.vertical pRect sRect verticalAlignment).1 ∧
    (calcRect.vertical pRect sRect verticalAlignment).1
      ≤ (calcRect.vertical pRect sRect verticalAlignment).2 ∧
    (calcRect.vertical pRect sRect verticalAlignment).2 ≤ pRect.Dy := by
  have h := extent_contained pRect.Dy sRect.Dy (Dy_isInt pRect) h0 h1
  rcases hv with e | e | e
  · rw [e, vertical_top]; exact h.1
  · rw [e, vertical_middle]; exact h.2.1
  · rw [e, vertical_bottom]; exact h.2.2

/-- C16: containment.  For every parent and source with
`0 ≤ sWidth ≤ pWidth` and every horizontal alignment among Left, Center and
Right, the result satisfies `0 ≤ Min.X ≤ Max.X ≤ pWidth`; with
`0 ≤ sHeight ≤ pHeight` and every vertical alignment among Top, Middle and
Bottom, `0 ≤ Min.Y ≤ Max.Y ≤ pHeight`: an aligned child that fits in its parent
lies inside the parent's local bounds (0,0)-(pWidth,pHeight). -/
theorem calcRect_containment (pRect sRect : image.Rectangle)
    (alignment : LayerAlignment) (verticalAlignment : LayerVerticalAlignment) :
    (0 ≤ sRect.Dx → sRect.Dx ≤ pRect.Dx →
      (alignment = LayerAlignmentLeft ∨ alignment = LayerAlignmentCenter ∨
        alignment = LayerAlignmentRight) →
      0 ≤ (calcRect pRect sRect alignment verticalAlignment).Min.X ∧
      (calcRect pRect sRect alignment verticalAlignment).Min.X
        ≤ (calcRect pRect sRect alignment verticalAlignment).Max.X ∧
      (calcRect pRect sRect alignment verticalAlignment).Max.X ≤ pRect.Dx) ∧
    (0 ≤ sRect.Dy → sRect.Dy ≤ pRect.Dy →
      (verticalAlignment = LayerVerticalAlignmentTop ∨
        verticalAlignment = LayerVerticalAlignmentMiddle ∨
        verticalAlignment = LayerVerticalAlignmentBottom) →
      0 ≤ (calcRect pRect sRect alignment verticalAlignment).Min.Y ∧
      (calcRect pRect sRect alignment verticalAlignment).Min.Y
        ≤ (calcRect pRect sRect alignment verticalAlignment).Max.Y ∧
      (calcRect pRect sRect alignment verticalAlignment).Max.Y ≤ pRect.Dy) :=
  ⟨fun h0 h1 ha => horizontal_contained pRect sRect alignment h0 h1 ha,
   fun h0 h1 hv => vertical_contained pRect sRect verticalAlignment h0 h1 hv⟩

/-- Witness of C16: the source (40,40)-(70,50) centred horizontally and put at
the bottom of the parent (5,5)-(105,55). -/
theorem calcRect_containment_witness :
    (0 ≤ (calcRect ⟨⟨5, 5⟩, ⟨105, 55⟩⟩ ⟨⟨40, 40⟩, ⟨70, 50⟩⟩ LayerAlignmentCenter
        LayerVerticalAlignmentBottom).Min.X ∧
      (calcRect ⟨⟨5, 5⟩, ⟨105, 55⟩⟩ ⟨⟨40, 40⟩, ⟨70, 50⟩⟩ LayerAlignmentCenter
        LayerVerticalAlignmentBottom).Min.X
        ≤ (calcRect ⟨⟨5, 5⟩, ⟨105, 55⟩⟩ ⟨⟨40, 40⟩, ⟨70, 50⟩⟩ LayerAlignmentCenter
          LayerVerticalAlignmentBottom).Max.X ∧
      (calcRect ⟨⟨5, 5⟩, ⟨105, 55⟩⟩ ⟨⟨40, 40⟩, ⟨70, 50⟩⟩ LayerAlignmentCenter
        LayerVerticalAlignmentBottom).Max.X
        ≤ (⟨⟨5, 5⟩, ⟨105, 55⟩⟩ : image.Rectangle).Dx) ∧
    (0 ≤ (calcRect ⟨⟨5, 5⟩, ⟨105, 55⟩⟩ ⟨⟨40, 40⟩, ⟨70, 50⟩⟩ LayerAlignmentCenter
        LayerVerticalAlignmentBottom).Min.Y ∧
      (calcRect ⟨⟨5, 5⟩, ⟨105, 55⟩⟩ ⟨⟨40, 40⟩, ⟨70, 50⟩⟩ LayerAlignmentCenter
        LayerVerticalAlignmentBottom).Min.Y
        ≤ (calcRect ⟨⟨5, 5⟩, ⟨105, 55⟩⟩ ⟨⟨40, 40⟩, ⟨70, 50⟩⟩ LayerAlignmentCenter
          LayerVerticalAlignmentBottom).Max.Y ∧
      (calcRect ⟨⟨5, 5⟩, ⟨105, 55⟩⟩ ⟨⟨40, 40⟩, ⟨70, 50⟩⟩ LayerAlignmentCenter
        LayerVerticalAlignmentBottom).Max.Y
        ≤ (⟨⟨5, 5⟩, ⟨105, 55⟩⟩ : image.Rectangle).Dy) :=
  ⟨(calcRect_containment ⟨⟨5, 5⟩, ⟨105, 55⟩⟩ ⟨⟨40, 40⟩, ⟨70, 50⟩⟩ LayerAlignmentCenter
      LayerVerticalAlignmentBottom).1 (by decide) (by decide) (Or.inr (Or.inl rfl)),
   (calcRect_containment ⟨⟨5, 5⟩, ⟨105, 55⟩⟩ ⟨⟨40, 40⟩, ⟨70, 50⟩⟩ LayerAlignmentCenter
      LayerVerticalAlignmentBottom).2 (by decide) (by decide) (Or.inr (Or.inr rfl))⟩

theorem intSub_intAdd_intAdd (a b d : Int) :
    intSub (intAdd a d) (intAdd b d) = intSub a b := by
  unfold intSub intAdd wrapInt minInt intModulus
  omega

theorem Add_Dx (r : image.Rectangle) (dx dy : Int) : (r.Add dx dy).Dx = r.Dx :=
  intSub_intAdd_intAdd r.Max.X r.Min.X dx

theorem Add_Dy (r : image.Rectangle) (dx dy : Int) : (r.Add dx dy).Dy = r.Dy :=
  intSub_intAdd_intAdd r.Max.Y r.Min.Y dy

theorem calcRect_of_extents (pRect sRect pRect' sRect' : image.Rectangle)
    (alignment : LayerAlignment) (verticalAlignment : LayerVerticalAlignment)
    (ha : alignment = LayerAlignmentLeft ∨ alignment = LayerAlignmentCenter ∨
      alignment = LayerAlignmentRight)
    (hv : verticalAlignment = LayerVerticalAlignmentTop ∨
      verticalAlignment = LayerVerticalAlignmentMiddle ∨
      verticalAlignment = LayerVerticalAlignmentBottom)
    (hpx : pRect.Dx = pRect'.Dx) (hpy : pRect.Dy = pRect'.Dy)
    (hsx : sRect.Dx = sRect'.Dx) (hsy : sRect.Dy = sRect'.Dy) :
    calcRect pRect sRect alignment verticalAlignment
      = calcRect pRect' sRect' alignment verticalAlignment := by
  unfold calcRect
  rw [horizontal_of_extents pRect sRect pRect' sRect' alignment ha hpx hsx,
    vertical_of_extents pRect sRect pRect' sRect' verticalAlignment hv hpy hsy]

/-- C17: position independence.  When the horizontal alignment is Left, Center
or Right and the vertical alignment is Top, Middle or Bottom, the result of
`calcRect` depends only on the widths and heights of the two rectangles:
translating the parent by any offset, or the source by any offset, leaves the
result unchanged.  The parent's `Min` corner is never added: the result is the
one for the parent moved to (0,0)-(pWidth,pHeight). -/
theorem calcRect_position_independent (pRect sRect pRect' sRect' : image.Rectangle)
    (alignment : LayerAlignment) (verticalAlignment : LayerVerticalAlignment)
    (dx dy ex ey : Int)
    (ha : alignment = LayerAlignmentLeft ∨ alignment = LayerAlignmentCenter ∨
      alignment = LayerAlignmentRight)
    (hv : verticalAlignment = LayerVerticalAlignmentTop ∨
      verticalAlignment = LayerVerticalAlignmentMiddle ∨
      verticalAlignment = LayerVerticalAlignmentBottom) :
    (pRect.Dx = pRect'.Dx → pRect.Dy = pRect'.Dy →
      sRect.Dx = sRect'.Dx → sRect.Dy = sRect'.Dy →
      calcRect pRect sRect alignment verticalAlignment
        = calcRect pRect' sRect' alignment verticalAlignment) ∧
    calcRect (pRect.Add dx dy) sRect alignment verticalAlignment
      = calcRect pRect sRect alignment verticalAlignment ∧
    calcRect pRect (sRect.Add ex ey) alignment verticalAlignment
      = calcRect pRect sRect alignment verticalAlignment ∧
    calcRect (pRect.Add dx dy) (sRect.Add ex ey) alignment verticalAlignment
      = calcRect pRect sRect alignment verticalAlignment ∧
    calcRect pRect sRect alignment verticalAlignment
      = calcRect ⟨⟨0, 0⟩, ⟨pRect.Dx, pRect.Dy⟩⟩ sRect alignment verticalAlignment := by
  refine ⟨?_, ?_, ?_, ?_, ?_⟩
  · intro hpx hpy hsx hsy
    exact calcRect_of_extents _ _ _ _ _ _ ha hv hpx hpy hsx hsy
  · exact calcRect_of_extents _ _ _ _ _ _ ha hv (Add_Dx _ _ _) (Add_Dy _ _ _) rfl rfl
  · exact calcRect_of_extents _ _ _ _ _ _ ha hv rfl rfl (Add_Dx _ _ _) (Add_Dy _ _ _)
  · exact calcRect_of_extents _ _ _ _ _ _ ha hv (Add_Dx _ _ _) (Add_Dy _ _ _)
      (Add_Dx _ _ _) (Add_Dy _ _ _)
  · refine calcRect_of_extents _ _ _ _ _ _ ha hv ?_ ?_ rfl rfl
    · exact (intSub_zero _ (Dx_isInt pRect)).symm
    · exact (intSub_zero _ (Dy_isInt pRect)).symm

/-- Witness of C17: the parent (0,0)-(100,50) moved by (7,-3) and the source
(5,6)-(35,16) moved by (-20,11), Right and Middle. -/
theorem calcRect_position_independent_witness :
    calcRect ((⟨⟨0, 0⟩, ⟨100, 50⟩⟩ : image.Rectangle).Add 7 (-3))
        ((⟨⟨5, 6⟩, ⟨35, 16⟩⟩ : image.Rectangle).Add (-20) 11) LayerAlignmentRight
        LayerVerticalAlignmentMiddle
      = calcRect ⟨⟨0, 0⟩, ⟨100, 50⟩⟩ ⟨⟨5, 6⟩, ⟨35, 16⟩⟩ LayerAlignmentRight
        LayerVerticalAlignmentMiddle :=
  (calcRect_position_independent ⟨⟨0, 0⟩, ⟨100, 50⟩⟩ ⟨⟨5, 6⟩, ⟨35, 16⟩⟩
    ⟨⟨0, 0⟩, ⟨100, 50⟩⟩ ⟨⟨5, 6⟩, ⟨35, 16⟩⟩ LayerAlignmentRight
    LayerVerticalAlignmentMiddle 7 (-3) (-20) 11 (Or.inr (Or.inr rfl))
    (Or.inr (Or.inl rfl))).2.2.2.1

theorem horizontal_idempotent (pRect sRect : image.Rectangle) (alignment : LayerAlignment)
    (verticalAlignment : LayerVerticalAlignment) :
    calcRect.horizontal pRect (calcRect pRect sRect alignment verticalAlignment) alignment
      = calcRect.horizontal pRect sRect alignment := by
  have hd : (calcRect pRect sRect alignment verticalAlignment).Dx = sRect.Dx :=
    horizontal_extent pRect sRect alignment
  by_cases h1 : alignment = LayerAlignmentLeft
  · exact horizontal_of_extents _ _ _ _ _ (Or.inl h1) rfl hd
  by_cases h2 : alignment = LayerAlignmentCenter
  · exact horizontal_of_extents _ _ _ _ _ (Or.inr (Or.inl h2)) rfl hd
  by_cases h3 : alignment = LayerAlignmentRight
  · exact horizontal_of_extents _ _ _ _ _ (Or.inr (Or.inr h3)) rfl hd
  rw [horizontal_other _ _ _ h1 h2 h3]
  simp [calcRect, horizontal_other pRect sRect alignment h1 h2 h3]

theorem vertical_idempotent (pRect sRect : image.Rectangle) (alignment : LayerAlignment)
    (verticalAlignment : LayerVerticalAlignment) :
    calcRect.vertical pRect (calcRect pRect sRect alignment verticalAlignment)
        verticalAlignment
      = calcRect.vertical pRect sRect verticalAlignment := by
  have hd : (calcRect pRect sRect alignment verticalAlignment).Dy = sRect.Dy :=
    vertical_extent pRect sRect verticalAlignment
  by_cases h1 : verticalAlignment = LayerVerticalAlignmentTop
  · exact vertical_of_extents _ _ _ _ _ (Or.inl h1) rfl hd
  by_cases h2 : verticalAlignment = LayerVerticalAlignmentMiddle
  · exact vertical_of_extents _ _ _ _ _ (Or.inr (Or.inl h2)) rfl hd
  by_cases h3 : verticalAlignment = LayerVerticalAlignmentBottom
  · exact vertical_of_extents _ _ _ _ _ (Or.inr (Or.inr h3)) rfl hd
  rw [vertical_other _ _ _ h1 h2 h3]
  simp [calcRect, vertical_other pRect sRect verticalAlignment h1 h2 h3]

/-- C18: idempotence.  For every parent `p`, source `s` and alignment values
`a`, `v`, named or not, aligning an already aligned rectangle changes nothing:
`calcRect p (calcRect p s a v) a v = calcRect p s a v`. -/
theorem calcRect_idempotent (pRect sRect : image.Rectangle) (alignment : LayerAlignment)
    (verticalAlignment : LayerVerticalAlignment) :
    calcRect pRect (calcRect pRect sRect alignment verticalAlignment) alignment
        verticalAlignment
      = calcRect pRect sRect alignment verticalAlignment := by
  have hx := horizontal_idempotent pRect sRect alignment verticalAlignment
  have hy := vertical_idempotent pRect sRect alignment verticalAlignment
  show ({ Min := { X := _, Y := _ }, Max := { X := _, Y := _ } } : image.Rectangle) = _
  rw [hx, hy]
  rfl

/-! ## `isNil` -/

/-- C19: `isNil` returns true exactly when its argument is an interface value
whose dynamic type is a pointer type and whose pointer is nil.  It returns
false for every non-nil pointer, for every value of a non-pointer kind (a nil
map, slice, channel or func included) and for the nil interface value, which has
no dynamic type; and it always returns, `Value.IsNil` being called on pointers
only. -/
theorem isNil_true_iff_nil_pointer (i : Interface) (kind : reflect.Kind)
    (nilValue : Bool) :
    (isNil i = some true ↔ i = Interface.dyn reflect.Kind.Ptr true) ∧
    (isNil i = some true ∨ isNil i = some false) ∧
    isNil (Interface.dyn reflect.Kind.Ptr false) = some false ∧
    (kind ≠ reflect.Kind.Ptr → isNil (Interface.dyn kind nilValue) = some false) ∧
    isNil Interface.untypedNil = some false := by
  refine ⟨?_, ?_, rfl, ?_, rfl⟩
  · cases i with
    | untypedNil => decide
    | dyn k b => cases k <;> cases b <;> decide
  · cases i with
    | untypedNil => decide
    | dyn k b => cases k <;> cases b <;> decide
  · intro hk
    cases kind <;> first | exact absurd rfl hk | rfl

/-- Witness of C19: a nil map and a nil slice are not reported as nil. -/
theorem isNil_true_iff_nil_pointer_witness :
    isNil (Interface.dyn reflect.Kind.Map true) = some false ∧
    isNil (Interface.dyn reflect.Kind.Slice true) = some false :=
  ⟨(isNil_true_iff_nil_pointer Interface.untypedNil reflect.Kind.Map true).2.2.2.1
      (by decide),
   (isNil_true_iff_nil_pointer Interface.untypedNil reflect.Kind.Slice true).2.2.2.1
      (by decide)⟩

end image4go
